/-
Verification of the supervising layer of the agent-battle-command-center
repository: the loop/runaway detector (ActionHistory), the sliding-window
rate limiter (AnthropicRateLimiter), the test-output parser
(test_validator.py) and the outcome classifier (schemas/output.py).

Each definition is a shallow embedding of the Python function of the same
name; machine floats are modelled as rationals (the only float constant
involved, RATE_LIMIT_BUFFER = 0.8, satisfies 50 * 0.8 == 40.0 exactly in
IEEE double arithmetic, so the rational model agrees with the float code on
the thresholds at issue), Python ints as Int/Nat, and Python exceptions as
explicit outcome values paired with the state as mutated up to the raise.
-/
import Mathlib

/-! ## Shared string helpers

Python's `needle in haystack`, `str.lower`, `str.strip`, `str.startswith`
and slicing, for the ASCII strings this code base manipulates. -/

/-- Substring containment, on character lists. -/
def listContains (hay needle : List Char) : Bool :=
  match hay with
  | [] => needle.isEmpty
  | c :: t => needle.isPrefixOf (c :: t) || listContains t needle

/-- Python `needle in haystack` (substring containment). -/
def containsSub (hay needle : String) : Bool :=
  listContains hay.toList needle.toList

/-- Python `str.lower()` (ASCII). -/
def strLower (s : String) : String :=
  String.mk (s.toList.map Char.toLower)

/-! ## Parameter dictionaries

Tool parameters are Python dicts (string keys, JSON-like values).  We model
them as association lists in insertion order; `json.dumps(d, sort_keys=True)`
is injective on such dicts, so byte-for-byte equality of the serialized form
is equality of the key-sorted entry list. -/

inductive PValue where
  | pstr (s : String)
  | pint (n : Int)
  | pbool (b : Bool)
  | pnull
deriving DecidableEq, Repr

abbrev Params := List (String × PValue)

/-- `params[key]` lookup (first binding; dict keys are unique). -/
def lookupParam (params : Params) (key : String) : Option PValue :=
  (params.find? (fun kv => kv.1 == key)).map (fun kv => kv.2)

/-- Python `str(value)` for display inside f-strings. -/
def pvDisplay : PValue → String
  | .pstr s => s
  | .pint n => toString n
  | .pbool true => "True"
  | .pbool false => "False"
  | .pnull => "None"

/-- Code-point lexicographic order on strings (the order `sort_keys=True`
uses), as an executable comparison on character lists. -/
def keyLe : List Char → List Char → Bool
  | [], _ => true
  | _ :: _, [] => false
  | a :: as, b :: bs =>
    if a.toNat < b.toNat then true
    else if b.toNat < a.toNat then false
    else keyLe as bs

/-- Insert an entry into a key-sorted parameter list (insertion sort step). -/
def insertByKey (e : String × PValue) : Params → Params
  | [] => [e]
  | f :: rest => if keyLe e.1.toList f.1.toList then e :: f :: rest else f :: insertByKey e rest

/-- Key-sorted view of a parameter dict: the order `json.dumps(_, sort_keys=True)`
serializes the entries in. -/
def sortParams : Params → Params
  | [] => []
  | e :: rest => insertByKey e (sortParams rest)

namespace ActionHist

/-! ## monitoring/action_history.py -/

/-- `TOOL_SPECIFIC_LIMITS`: per-target call caps. -/
def TOOL_SPECIFIC_LIMITS : String → Option Nat := fun t =>
  if t == "file_write" then some 3
  else if t == "file_edit" then some 5
  else if t == "shell_run" then some 10
  else none

/-- `MAX_TOTAL_TOOL_CALLS`: hard cap on total tool calls per task. -/
def MAX_TOTAL_TOOL_CALLS : Nat := 50

/-- The class-level state of `ActionHistory` (`_history`, `_tool_path_counts`,
`_total_calls`).  Timestamps stored in `_history` are never read by any of
the checks, so they are omitted from the record. -/
structure HistState where
  history : List (String × Params)
  tool_path_counts : String → String → Nat
  total_calls : Nat

/-- The state a fresh `ActionHistory()` starts from (`__new__`). -/
def initialState : HistState :=
  { history := [], tool_path_counts := fun _ _ => 0, total_calls := 0 }

/-- `ActionHistory.reset()`: clears all three fields. -/
def reset (_s : HistState) : HistState :=
  { history := [], tool_path_counts := fun _ _ => 0, total_calls := 0 }

/-- `ActionHistory._extract_path_from_params`. -/
def _extract_path_from_params (tool_name : String) (params : Params) : String :=
  let rec firstStr : List String → Option String
    | [] => none
    | k :: ks =>
      match lookupParam params k with
      | some (.pstr s) => some s
      | _ => firstStr ks
  match firstStr ["path", "file_path", "filepath", "filename", "file"] with
  | some s => s
  | none =>
    if tool_name == "shell_run" then
      let cmd : PValue :=
        match lookupParam params "command" with
        | some v => v
        | none =>
          match lookupParam params "cmd" with
          | some v => v
          | none => .pstr ""
      match cmd with
      | .pstr s => s
      | _ => ""
    else ""

/-- `ActionHistory._params_match` at threshold 1.0: equality of the
`json.dumps(_, sort_keys=True)` serializations, i.e. equality of the
key-sorted entry lists. -/
def _params_match_exact (params1 params2 : Params) : Bool :=
  sortParams params1 == sortParams params2

/-- Why a `register_action` call raised `ActionLoopDetected` (the code
distinguishes the four raises only by their message text, which embeds
the data carried here). -/
inductive RegOutcome where
  | ok
  | hardLimitExceeded (total : Nat)
  | toolLimitExceeded (tool target : String) (count limit : Nat)
  | exactDuplicate (tool : String)
  | toolFrequency (tool : String) (count : Nat)
deriving DecidableEq, Repr

/-- The tail of `register_action` after the cap checks: append to history,
then (with ≥ 3 records) the exact-duplicate scan over the two records
preceding the newest and the same-tool-frequency scan over the last 5.
The 0.8-similarity scan only prints a warning and changes nothing, so it
is not modelled. -/
def register_append (s : HistState) (tool_name : String) (params : Params) :
    RegOutcome × HistState :=
  let history' := s.history ++ [(tool_name, params)]
  let s' := { s with history := history' }
  if history'.length < 3 then (.ok, s')
  else
    let recent := history'.drop (history'.length - 5)
    let dupWindow := (recent.take (recent.length - 1)).drop (recent.length - 3)
    if dupWindow.any (fun r => r.1 == tool_name && _params_match_exact r.2 params) then
      (.exactDuplicate tool_name, s')
    else
      let same_tool_count := recent.countP (fun r => r.1 == tool_name)
      if same_tool_count ≥ 5 then (.toolFrequency tool_name same_tool_count, s')
      else (.ok, s')

/-- `ActionHistory.register_action`.  Returns the outcome together with the
state as mutated up to the point the Python code returns or raises. -/
def register_action (s : HistState) (tool_name : String) (params : Params) :
    RegOutcome × HistState :=
  let total' := s.total_calls + 1
  if total' > MAX_TOTAL_TOOL_CALLS then
    (.hardLimitExceeded total', { s with total_calls := total' })
  else
    let target_path := _extract_path_from_params tool_name params
    match TOOL_SPECIFIC_LIMITS tool_name with
    | some limit =>
      if target_path = "" then
        register_append { s with total_calls := total' } tool_name params
      else
        let counts' := fun t p =>
          if t = tool_name ∧ p = target_path then s.tool_path_counts t p + 1
          else s.tool_path_counts t p
        let count := counts' tool_name target_path
        if count > limit then
          (.toolLimitExceeded tool_name target_path count limit,
           { s with total_calls := total', tool_path_counts := counts' })
        else
          register_append { s with total_calls := total', tool_path_counts := counts' }
            tool_name params
    | none => register_append { s with total_calls := total' } tool_name params

abbrev ToolCall := String × Params

/-- Run a sequence of `register_action` calls, threading the state. -/
def runSeq (s : HistState) : List ToolCall → HistState
  | [] => s
  | c :: cs => runSeq (register_action s c.1 c.2).2 cs

/-- The outcomes of a sequence of `register_action` calls. -/
def runResults (s : HistState) : List ToolCall → List RegOutcome
  | [] => []
  | c :: cs =>
    (register_action s c.1 c.2).1 :: runResults (register_action s c.1 c.2).2 cs

end ActionHist

namespace ActionHist

/-! ### Basic stepping lemmas -/

theorem register_append_snd (s : HistState) (t : String) (p : Params) :
    (register_append s t p).2 = { s with history := s.history ++ [(t, p)] } := by
  unfold register_append
  dsimp only
  repeat' split
  all_goals rfl

theorem register_action_total (s : HistState) (t : String) (p : Params) :
    (register_action s t p).2.total_calls = s.total_calls + 1 := by
  unfold register_action
  dsimp only
  repeat' split
  all_goals simp [register_append_snd]

theorem runSeq_total (seq : List ToolCall) :
    ∀ s : HistState, (runSeq s seq).total_calls = s.total_calls + seq.length := by
  induction seq with
  | nil => intro s; simp [runSeq]
  | cons c cs ih =>
    intro s
    simp only [runSeq, ih, register_action_total, List.length_cons]
    omega

end ActionHist

namespace ActionHist

/-- A call to tool `T` whose extracted target is `K`. -/
def isPairCall (T K : String) (c : ToolCall) : Bool :=
  c.1 == T && _extract_path_from_params c.1 c.2 == K

theorem register_action_counts (s : HistState) (t : String) (p : Params) (T K : String) :
    (register_action s t p).2.tool_path_counts T K =
      s.tool_path_counts T K +
        (if s.total_calls + 1 ≤ MAX_TOTAL_TOOL_CALLS ∧ (TOOL_SPECIFIC_LIMITS t).isSome ∧
            _extract_path_from_params t p ≠ "" ∧ t = T ∧ _extract_path_from_params t p = K
         then 1 else 0) := by
  unfold register_action
  dsimp only
  by_cases hhard : s.total_calls + 1 > MAX_TOTAL_TOOL_CALLS
  · rw [if_pos hhard, if_neg (by omega)]
    rfl
  · rw [if_neg hhard]
    cases hsome : TOOL_SPECIFIC_LIMITS t with
    | none =>
      rw [register_append_snd, if_neg (by simp)]
      rfl
    | some lim =>
      dsimp only
      by_cases hemp : _extract_path_from_params t p = ""
      · rw [if_pos hemp, register_append_snd, if_neg (by simp [hemp])]
        rfl
      · rw [if_neg hemp]
        simp only [eq_self_iff_true, and_self, if_true]
        have hend : (if T = t ∧ K = _extract_path_from_params t p then
              s.tool_path_counts T K + 1 else s.tool_path_counts T K) =
            s.tool_path_counts T K +
              (if s.total_calls + 1 ≤ MAX_TOTAL_TOOL_CALLS ∧
                  (Option.isSome (some lim) : Bool) ∧ _extract_path_from_params t p ≠ "" ∧
                  t = T ∧ _extract_path_from_params t p = K then 1 else 0) := by
          by_cases hTK : t = T ∧ _extract_path_from_params t p = K
          · rw [if_pos ⟨hTK.1.symm, hTK.2.symm⟩,
              if_pos ⟨by omega, by simp, hemp, hTK.1, hTK.2⟩]
          · rw [if_neg (fun h => hTK ⟨h.1.symm, h.2.symm⟩),
              if_neg (fun h => hTK ⟨h.2.2.2.1, h.2.2.2.2⟩)]
            rfl
        split
        · exact hend
        · rw [register_append_snd]
          exact hend

end ActionHist

namespace ActionHist

theorem runSeq_counts (seq : List ToolCall) :
    ∀ s : HistState, ∀ T K : String, (TOOL_SPECIFIC_LIMITS T).isSome → K ≠ "" →
      (runSeq s seq).tool_path_counts T K =
        s.tool_path_counts T K +
          (seq.take (MAX_TOTAL_TOOL_CALLS - s.total_calls)).countP (isPairCall T K) := by
  induction seq with
  | nil => intro s T K _ _; simp [runSeq]
  | cons c cs ih =>
    intro s T K hT hK
    simp only [runSeq]
    rw [ih _ T K hT hK, register_action_counts, register_action_total]
    by_cases hlt : s.total_calls < MAX_TOTAL_TOOL_CALLS
    · have h1 : MAX_TOTAL_TOOL_CALLS - s.total_calls =
          (MAX_TOTAL_TOOL_CALLS - (s.total_calls + 1)) + 1 := by omega
      rw [h1, List.take_succ_cons, List.countP_cons]
      have h2 : (if s.total_calls + 1 ≤ MAX_TOTAL_TOOL_CALLS ∧
            (TOOL_SPECIFIC_LIMITS c.1).isSome ∧
            _extract_path_from_params c.1 c.2 ≠ "" ∧ c.1 = T ∧
            _extract_path_from_params c.1 c.2 = K
          then 1 else 0) = (if isPairCall T K c then 1 else 0) := by
        by_cases hp : c.1 = T ∧ _extract_path_from_params c.1 c.2 = K
        · rw [if_pos ⟨by omega, by rw [hp.1]; exact hT, by rw [hp.2]; exact hK, hp⟩,
            if_pos (by simp only [isPairCall, Bool.and_eq_true, beq_iff_eq]; exact hp)]
        · rw [if_neg (fun h => hp ⟨h.2.2.2.1, h.2.2.2.2⟩),
            if_neg (by simp [isPairCall]; intro h1 h2; exact absurd ⟨h1, h2⟩ hp)]
      rw [h2]
      omega
    · have h1 : MAX_TOTAL_TOOL_CALLS - s.total_calls = 0 := by omega
      have h2 : MAX_TOTAL_TOOL_CALLS - (s.total_calls + 1) = 0 := by omega
      rw [h1, h2]
      simp only [List.take_zero, List.countP_nil]
      rw [if_neg (by omega)]

end ActionHist

namespace ActionHist

theorem register_action_ok_history (s : HistState) (t : String) (p : Params)
    (hok : (register_action s t p).1 = RegOutcome.ok) :
    (register_action s t p).2.history = s.history ++ [(t, p)] := by
  unfold register_action at hok ⊢
  dsimp only at hok ⊢
  split at hok
  · exact absurd hok (by simp)
  · revert hok
    repeat' split
    all_goals intro hok
    all_goals simp_all [register_append_snd]

theorem runSeq_history_of_ok (seq : List ToolCall) :
    ∀ s : HistState, (∀ r ∈ runResults s seq, r = RegOutcome.ok) →
      (runSeq s seq).history = s.history ++ seq := by
  induction seq with
  | nil => intro s _; simp [runSeq]
  | cons c cs ih =>
    intro s hok
    have hhead : (register_action s c.1 c.2).1 = RegOutcome.ok :=
      hok _ (by simp [runResults])
    have htail : ∀ r ∈ runResults (register_action s c.1 c.2).2 cs, r = RegOutcome.ok :=
      fun r hr => hok r (by simp [runResults, hr])
    simp only [runSeq]
    rw [ih _ htail, register_action_ok_history s c.1 c.2 hhead]
    simp

theorem runResults_length (seq : List ToolCall) :
    ∀ s : HistState, (runResults s seq).length = seq.length := by
  induction seq with
  | nil => intro s; rfl
  | cons c cs ih => intro s; simp [runResults, ih]

theorem runResults_get (seq : List ToolCall) :
    ∀ s : HistState, ∀ i : Nat, ∀ h : i < seq.length,
      ∀ h' : i < (runResults s seq).length,
      (runResults s seq).get ⟨i, h'⟩ =
        (register_action (runSeq s (seq.take i)) (seq.get ⟨i, h⟩).1 (seq.get ⟨i, h⟩).2).1 := by
  induction seq with
  | nil => intro s i h; exact absurd h (by simp)
  | cons c cs ih =>
    intro s i h h'
    cases i with
    | zero => rfl
    | succ j =>
      have hj : j < cs.length := by simpa using h
      have hj' : j < (runResults (register_action s c.1 c.2).2 cs).length := by
        rw [runResults_length]; exact hj
      simpa [runResults, runSeq, List.take_succ_cons] using
        ih (register_action s c.1 c.2).2 j hj hj'

end ActionHist

namespace ActionHist

theorem register_action_hard (s : HistState) (t : String) (p : Params)
    (h : s.total_calls + 1 > MAX_TOTAL_TOOL_CALLS) :
    (register_action s t p).1 = RegOutcome.hardLimitExceeded (s.total_calls + 1) := by
  unfold register_action
  dsimp only
  rw [if_pos h]

theorem runSeq_all_ok_length (seq : List ToolCall)
    (hok : ∀ r ∈ runResults initialState seq, r = RegOutcome.ok) :
    seq.length ≤ MAX_TOTAL_TOOL_CALLS := by
  by_contra hgt
  push_neg at hgt
  have h' : MAX_TOTAL_TOOL_CALLS < (runResults initialState seq).length := by
    rw [runResults_length]; exact hgt
  have hget := runResults_get seq initialState MAX_TOTAL_TOOL_CALLS hgt h'
  have htot : (runSeq initialState (seq.take MAX_TOTAL_TOOL_CALLS)).total_calls =
      MAX_TOTAL_TOOL_CALLS := by
    rw [runSeq_total]
    simp only [initialState, List.length_take]
    omega
  rw [register_action_hard _ _ _ (by omega)] at hget
  have hmem : (runResults initialState seq).get ⟨MAX_TOTAL_TOOL_CALLS, h'⟩ ∈
      runResults initialState seq := List.get_mem _ _ _
  rw [hget, htot] at hmem
  exact absurd (hok _ hmem) (by simp)

end ActionHist

namespace ActionHist

/-! ### Claim C3 -/

/-- C3 (amended): after a sequence of `register_action` calls in which no call
raised, `totalCalls` equals the length of the history, and for every capped
tool and nonempty target the per-target count equals the number of history
records with that tool and extracted target.  (As stated over sequences with
failing calls the claim is false: a call that raises past the cap checks has
already incremented `_total_calls` and the per-target count but never appends
to `_history`; see the counterexample.) -/
theorem actionHistory_invariants (seq : List ToolCall)
    (hok : ∀ r ∈ runResults initialState seq, r = RegOutcome.ok) :
    (runSeq initialState seq).total_calls = (runSeq initialState seq).history.length ∧
    ∀ t k : String, (TOOL_SPECIFIC_LIMITS t).isSome → k ≠ "" →
      (runSeq initialState seq).tool_path_counts t k =
        (runSeq initialState seq).history.countP (isPairCall t k) := by
  have hhist : (runSeq initialState seq).history = seq := by
    rw [runSeq_history_of_ok seq initialState hok]
    simp [initialState]
  have hlen : seq.length ≤ MAX_TOTAL_TOOL_CALLS := runSeq_all_ok_length seq hok
  constructor
  · rw [runSeq_total, hhist]
    simp [initialState]
  · intro t k ht hk
    rw [runSeq_counts seq initialState t k ht hk, hhist]
    simp only [initialState, Nat.sub_zero, Nat.zero_add]
    rw [List.take_of_length_le hlen]

/-- Witness for C3: a concrete failure-free sequence (two writes to different
paths) satisfying both invariants. -/
def c3wSeq : List ToolCall :=
  [("file_write", [("path", PValue.pstr "a"), ("content", PValue.pstr "x")]),
   ("file_write", [("path", PValue.pstr "b"), ("content", PValue.pstr "y")])]

theorem actionHistory_invariants_witness :
    (runSeq initialState c3wSeq).total_calls = (runSeq initialState c3wSeq).history.length ∧
    (runSeq initialState c3wSeq).tool_path_counts "file_write" "a" =
      (runSeq initialState c3wSeq).history.countP (isPairCall "file_write" "a") :=
  ⟨(actionHistory_invariants c3wSeq (by decide)).1,
   (actionHistory_invariants c3wSeq (by decide)).2 "file_write" "a" (by decide) (by decide)⟩

/-- Parameters of a `file_write` call to path "a" with given content. -/
def wparams (content : String) : Params :=
  [("path", PValue.pstr "a"), ("content", PValue.pstr content)]

/-- Four writes to the same path "a" with distinct contents: the fourth call
raises the per-target cap. -/
def c3ceSeq : List ToolCall :=
  [("file_write", wparams "1"), ("file_write", wparams "2"),
   ("file_write", wparams "3"), ("file_write", wparams "4")]

set_option maxRecDepth 8000 in
/-- Counterexample to C3 as stated: after the fourth `file_write` to the same
path raises `ActionLoopDetected`, `totalCalls` is 4 but the history has only
3 records, and the per-target count is 4 while only 3 history records carry
that (tool, target) pair. -/
theorem actionHistory_invariants_counterexample :
    (runResults initialState c3ceSeq).getLast? =
      some (RegOutcome.toolLimitExceeded "file_write" "a" 4 3) ∧
    (runSeq initialState c3ceSeq).total_calls = 4 ∧
    (runSeq initialState c3ceSeq).history.length = 3 ∧
    (runSeq initialState c3ceSeq).tool_path_counts "file_write" "a" = 4 ∧
    (runSeq initialState c3ceSeq).history.countP (isPairCall "file_write" "a") = 3 := by
  decide

/-! ### Claim C9 -/

/-- C9: `reset()` followed by any sequence of `register_action` calls produces
exactly the outcomes and final state of the same sequence run on a freshly
constructed `ActionHistory` — reset leaves no residual state. -/
theorem reset_equiv_fresh (s : HistState) (seq : List ToolCall) :
    runResults (reset s) seq = runResults initialState seq ∧
    runSeq (reset s) seq = runSeq initialState seq :=
  ⟨rfl, rfl⟩

end ActionHist

namespace ActionHist

/-- The exact-duplicate window scanned by `register_action` (positions −2 and
−3 relative to the newly appended record) is exactly the last two records of
the pre-append history. -/
theorem dupWindow_char {α : Type} (h : List α) (r : α) (hh : 2 ≤ h.length) :
    (((h ++ [r]).drop ((h ++ [r]).length - 5)).take
        (((h ++ [r]).drop ((h ++ [r]).length - 5)).length - 1)).drop
        (((h ++ [r]).drop ((h ++ [r]).length - 5)).length - 3)
      = h.drop (h.length - 2) := by
  have hlen1 : (h ++ [r]).length = h.length + 1 := by simp
  have hlend : ((h ++ [r]).drop ((h ++ [r]).length - 5)).length =
      (h.length + 1) - ((h.length + 1) - 5) := by
    rw [List.length_drop, hlen1]
  rw [List.drop_take, List.drop_drop, hlend, hlen1]
  have h2 : ((h.length + 1) - 5) + ((h.length + 1 - (h.length + 1 - 5)) - 3) =
      h.length - 2 := by omega
  have h3 : ((h.length + 1 - (h.length + 1 - 5)) - 1) -
      ((h.length + 1 - (h.length + 1 - 5)) - 3) = 2 := by omega
  rw [h2, h3, List.drop_append_eq_append_drop]
  have h4 : [r].drop (h.length - 2 - h.length) = [r] := by
    have : h.length - 2 - h.length = 0 := by omega
    rw [this]; rfl
  rw [h4, List.take_append_eq_append_take]
  have h5 : (h.drop (h.length - 2)).length = 2 := by
    rw [List.length_drop]; omega
  rw [List.take_of_length_le (by omega : (h.drop (h.length - 2)).length ≤ 2), h5]
  simp

end ActionHist

namespace ActionHist

theorem register_append_ne_toolLimit (s : HistState) (t : String) (p : Params)
    (a b : String) (c d : Nat) :
    (register_append s t p).1 ≠ RegOutcome.toolLimitExceeded a b c d := by
  unfold register_append
  dsimp only
  repeat' split
  all_goals simp

theorem register_append_ok_no_dup (s : HistState) (t : String) (p : Params)
    (hlen : 2 ≤ s.history.length)
    (hok : (register_append s t p).1 = RegOutcome.ok) :
    ∀ r ∈ s.history.drop (s.history.length - 2),
      ¬(r.1 = t ∧ _params_match_exact r.2 p = true) := by
  intro r hr hcontra
  unfold register_append at hok
  dsimp only at hok
  rw [dupWindow_char s.history (t, p) hlen] at hok
  split at hok
  · rename_i hlt
    simp at hlt
    omega
  · split at hok
    · exact absurd hok (by simp)
    · rename_i hany
      apply hany
      rw [List.any_eq_true]
      exact ⟨r, hr, by simp [hcontra.1, hcontra.2]⟩

theorem register_append_exactDup_imp (s : HistState) (t : String) (p : Params)
    (t' : String) (h : (register_append s t p).1 = RegOutcome.exactDuplicate t') :
    2 ≤ s.history.length ∧ ∃ r ∈ s.history.drop (s.history.length - 2),
      r.1 = t ∧ _params_match_exact r.2 p = true := by
  unfold register_append at h
  dsimp only at h
  split at h
  · exact absurd h (by simp)
  · rename_i hge
    have hlen : 2 ≤ s.history.length := by
      simp at hge
      omega
    rw [dupWindow_char s.history (t, p) hlen] at h
    split at h
    · rename_i hany
      rw [List.any_eq_true] at hany
      obtain ⟨r, hr, hpred⟩ := hany
      simp only [Bool.and_eq_true, beq_iff_eq] at hpred
      exact ⟨hlen, r, hr, hpred.1, hpred.2⟩
    · split at h <;> exact absurd h (by simp)

theorem register_action_ok_no_dup (s : HistState) (t : String) (p : Params)
    (hlen : 2 ≤ s.history.length)
    (hok : (register_action s t p).1 = RegOutcome.ok) :
    ∀ r ∈ s.history.drop (s.history.length - 2),
      ¬(r.1 = t ∧ _params_match_exact r.2 p = true) := by
  unfold register_action at hok
  dsimp only at hok
  split at hok
  · exact absurd hok (by simp)
  · split at hok
    · split at hok
      · exact register_append_ok_no_dup (HistState.mk s.history s.tool_path_counts
          (s.total_calls + 1)) t p hlen hok
      · simp only [eq_self_iff_true, and_self, if_true] at hok
        split at hok
        · exact absurd hok (by simp)
        · exact register_append_ok_no_dup (HistState.mk s.history
            (fun t1 p1 => if t1 = t ∧ p1 = _extract_path_from_params t p then
              s.tool_path_counts t1 p1 + 1 else s.tool_path_counts t1 p1)
            (s.total_calls + 1)) t p hlen hok
    · exact register_append_ok_no_dup (HistState.mk s.history s.tool_path_counts
        (s.total_calls + 1)) t p hlen hok

theorem register_action_exactDup_imp (s : HistState) (t : String) (p : Params)
    (t' : String) (h : (register_action s t p).1 = RegOutcome.exactDuplicate t') :
    2 ≤ s.history.length ∧ ∃ r ∈ s.history.drop (s.history.length - 2),
      r.1 = t ∧ _params_match_exact r.2 p = true := by
  unfold register_action at h
  dsimp only at h
  split at h
  · exact absurd h (by simp)
  · split at h
    · split at h
      · exact register_append_exactDup_imp (HistState.mk s.history s.tool_path_counts
          (s.total_calls + 1)) t p t' h
      · simp only [eq_self_iff_true, and_self, if_true] at h
        split at h
        · exact absurd h (by simp)
        · exact register_append_exactDup_imp (HistState.mk s.history
            (fun t1 p1 => if t1 = t ∧ p1 = _extract_path_from_params t p then
              s.tool_path_counts t1 p1 + 1 else s.tool_path_counts t1 p1)
            (s.total_calls + 1)) t p t' h
    · exact register_append_exactDup_imp (HistState.mk s.history s.tool_path_counts
        (s.total_calls + 1)) t p t' h

theorem register_action_toolLimit (s : HistState) (t : String) (p : Params) (L : Nat)
    (hle : s.total_calls + 1 ≤ MAX_TOTAL_TOOL_CALLS)
    (hsome : TOOL_SPECIFIC_LIMITS t = some L)
    (hne : _extract_path_from_params t p ≠ "")
    (hcnt : s.tool_path_counts t (_extract_path_from_params t p) + 1 > L) :
    (register_action s t p).1 =
      RegOutcome.toolLimitExceeded t (_extract_path_from_params t p)
        (s.tool_path_counts t (_extract_path_from_params t p) + 1) L := by
  unfold register_action
  dsimp only
  rw [if_neg (by omega)]
  simp only [hsome]
  rw [if_neg hne]
  simp only [eq_self_iff_true, and_self, if_true]
  rw [if_pos hcnt]

theorem register_action_not_toolLimit (s : HistState) (t : String) (p : Params) (L : Nat)
    (hle : s.total_calls + 1 ≤ MAX_TOTAL_TOOL_CALLS)
    (hsome : TOOL_SPECIFIC_LIMITS t = some L)
    (hne : _extract_path_from_params t p ≠ "")
    (hcnt : s.tool_path_counts t (_extract_path_from_params t p) + 1 ≤ L) :
    ∀ (a b : String) (c d : Nat),
      (register_action s t p).1 ≠ RegOutcome.toolLimitExceeded a b c d := by
  intro a b c d hcontra
  unfold register_action at hcontra
  dsimp only at hcontra
  rw [if_neg (by omega)] at hcontra
  simp only [hsome] at hcontra
  rw [if_neg hne] at hcontra
  simp only [eq_self_iff_true, and_self, if_true] at hcontra
  rw [if_neg (by omega)] at hcontra
  exact register_append_ne_toolLimit _ t p a b c d hcontra

end ActionHist

namespace ActionHist

/-! ### Claim C4 -/

/-- C4 (amended): for every capped tool (write:3, edit:5, run:10) and nonempty
target, in any sequence of register calls the (C+1)-th call to the same
(tool, target) pair fails with `ActionLoopDetected`, and the C-th call to
that pair is never refused by the per-target cap itself — though, contrary
to the claim as stated, it can still fail for a different reason (exact
duplicate, tool frequency, or the global cap); see the counterexample. -/
theorem perTargetCap (seq : List ToolCall) (t k : String) (L : Nat)
    (hcap : TOOL_SPECIFIC_LIMITS t = some L) (hk : k ≠ "")
    (i : Nat) (hi : i < seq.length) (hi' : i < (runResults initialState seq).length)
    (hpair : isPairCall t k (seq.get ⟨i, hi⟩) = true) :
    ((seq.take (i + 1)).countP (isPairCall t k) = L + 1 →
      (runResults initialState seq).get ⟨i, hi'⟩ ≠ RegOutcome.ok) ∧
    ((seq.take (i + 1)).countP (isPairCall t k) ≤ L →
      ∀ (a b : String) (c d : Nat),
        (runResults initialState seq).get ⟨i, hi'⟩ ≠ RegOutcome.toolLimitExceeded a b c d) := by
  have hget := runResults_get seq initialState i hi hi'
  have htot : (runSeq initialState (seq.take i)).total_calls = i := by
    rw [runSeq_total]
    simp only [initialState, List.length_take]
    omega
  have htake : (seq.take (i + 1)).countP (isPairCall t k) =
      (seq.take i).countP (isPairCall t k) + 1 := by
    rw [← List.take_concat_get seq i hi, List.concat_eq_append, List.countP_append]
    have hpair' : isPairCall t k seq[i] = true := by
      rw [← List.get_eq_getElem seq ⟨i, hi⟩]
      exact hpair
    simp [List.countP_cons, hpair']
  have hp1 : (seq.get ⟨i, hi⟩).1 = t := by
    have := hpair
    simp only [isPairCall, Bool.and_eq_true, beq_iff_eq] at this
    exact this.1
  have hp2 : _extract_path_from_params t (seq.get ⟨i, hi⟩).2 = k := by
    have := hpair
    simp only [isPairCall, Bool.and_eq_true, beq_iff_eq] at this
    rw [← hp1]
    exact this.2
  rw [hp1] at hget
  constructor
  · intro hC
    by_cases hhard : MAX_TOTAL_TOOL_CALLS < i + 1
    · rw [hget, register_action_hard _ _ _ (by omega)]
      simp
    · have hcnt : (runSeq initialState (seq.take i)).tool_path_counts t k = L := by
        rw [runSeq_counts (seq.take i) initialState t k (by simp [hcap]) hk]
        simp only [initialState, Nat.sub_zero]
        rw [List.take_of_length_le (by rw [List.length_take]; omega)]
        omega
      rw [hget, register_action_toolLimit _ t _ L (by omega) hcap
        (by rw [hp2]; exact hk) (by rw [hp2, hcnt]; omega)]
      simp
  · intro hC a b c d
    by_cases hhard : MAX_TOTAL_TOOL_CALLS < i + 1
    · rw [hget, register_action_hard _ _ _ (by omega)]
      simp
    · have hcnt : (runSeq initialState (seq.take i)).tool_path_counts t k + 1 ≤ L := by
        rw [runSeq_counts (seq.take i) initialState t k (by simp [hcap]) hk]
        simp only [initialState, Nat.sub_zero]
        rw [List.take_of_length_le (by rw [List.length_take]; omega)]
        omega
      rw [hget]
      exact register_action_not_toolLimit _ t _ L (by omega) hcap
        (by rw [hp2]; exact hk) (by rw [hp2]; omega) a b c d

end ActionHist


namespace ActionHist

/-! ### Claim C5 -/

theorem get_drop_take (seq : List ToolCall) (j m idx : Nat) (hjle : j ≤ seq.length)
    (hm : m < ((seq.take j).drop (j - 2)).length) (hval : idx = j - 2 + m)
    (hidx : idx < seq.length) :
    ((seq.take j).drop (j - 2)).get ⟨m, hm⟩ = seq.get ⟨idx, hidx⟩ := by
  subst hval
  have h1 : (j - 2) + m < (seq.take j).length := by
    rw [List.length_drop, List.length_take] at hm
    rw [List.length_take]
    omega
  calc ((seq.take j).drop (j - 2)).get ⟨m, hm⟩
      = (seq.take j).get ⟨(j - 2) + m, h1⟩ := (List.get_drop _ h1).symm
    _ = seq.get ⟨j - 2 + m, hidx⟩ := List.get_take' _

/-- C5 (amended): provided the later call would be at least the third record
in the history (at least two earlier calls, all of which succeeded), a
register call whose tool and serialized parameters exactly match a call
separated from it by at most one other call fails with `ActionLoopDetected`,
and a call never fails with the exact-duplicate error unless some call at
distance ≤ 2 before it matches exactly (so duplicates separated by ≥ 3 other
calls never trigger it).  As stated the claim is false for the first two
records — with fewer than 3 records `register_action` returns before the
duplicate scan; see the counterexample. -/
theorem exactDuplicateWindow :
    (∀ (seq : List ToolCall) (i j : Nat) (hi : i < seq.length) (hj : j < seq.length)
      (hj' : j < (runResults initialState seq).length),
      i < j → j ≤ i + 2 → 2 ≤ j →
      (∀ r ∈ runResults initialState (seq.take j), r = RegOutcome.ok) →
      (seq.get ⟨i, hi⟩).1 = (seq.get ⟨j, hj⟩).1 →
      _params_match_exact (seq.get ⟨i, hi⟩).2 (seq.get ⟨j, hj⟩).2 = true →
      (runResults initialState seq).get ⟨j, hj'⟩ ≠ RegOutcome.ok) ∧
    (∀ (seq : List ToolCall) (j : Nat) (hj : j < seq.length)
      (hj' : j < (runResults initialState seq).length),
      (∀ r ∈ runResults initialState (seq.take j), r = RegOutcome.ok) →
      (∀ (i : Nat) (hi : i < seq.length), i < j → j ≤ i + 2 →
        ¬((seq.get ⟨i, hi⟩).1 = (seq.get ⟨j, hj⟩).1 ∧
          _params_match_exact (seq.get ⟨i, hi⟩).2 (seq.get ⟨j, hj⟩).2 = true)) →
      ∀ t', (runResults initialState seq).get ⟨j, hj'⟩ ≠ RegOutcome.exactDuplicate t') := by
  constructor
  · intro seq i j hi hj hj' hij hsep hj2 hok htool hparams hcon
    have hget := runResults_get seq initialState j hj hj'
    rw [hget] at hcon
    have hhist : (runSeq initialState (seq.take j)).history = seq.take j := by
      rw [runSeq_history_of_ok (seq.take j) initialState hok]
      simp [initialState]
    have hlentake : (seq.take j).length = j := by
      rw [List.length_take]
      omega
    have hnodup := register_action_ok_no_dup _ _ _
      (by rw [hhist, hlentake]; omega) hcon
    rw [hhist, hlentake] at hnodup
    have hidx : i - (j - 2) < ((seq.take j).drop (j - 2)).length := by
      rw [List.length_drop, List.length_take]
      omega
    have hel := get_drop_take seq j (i - (j - 2)) i (by omega) hidx (by omega) hi
    have hmem : seq.get ⟨i, hi⟩ ∈ (seq.take j).drop (j - 2) := by
      rw [← hel]
      exact List.get_mem _ _ _
    exact hnodup (seq.get ⟨i, hi⟩) hmem ⟨htool, hparams⟩
  · intro seq j hj hj' hok hnear t' hcon
    have hget := runResults_get seq initialState j hj hj'
    rw [hget] at hcon
    have hhist : (runSeq initialState (seq.take j)).history = seq.take j := by
      rw [runSeq_history_of_ok (seq.take j) initialState hok]
      simp [initialState]
    obtain ⟨hlen2, r, hr, hrt, hrp⟩ := register_action_exactDup_imp _ _ _ t' hcon
    rw [hhist] at hlen2 hr
    have hlentake : (seq.take j).length = j := by
      rw [List.length_take]
      omega
    rw [hlentake] at hr
    have hj2 : 2 ≤ j := by
      rw [hlentake] at hlen2
      exact hlen2
    obtain ⟨⟨n, hn⟩, hrn⟩ := List.mem_iff_get.mp hr
    have hn2 : n < 2 := by
      have := hn
      rw [List.length_drop, hlentake] at this
      omega
    have hseq : r = seq.get ⟨j - 2 + n, by omega⟩ := by
      rw [← hrn]
      exact get_drop_take seq j n (j - 2 + n) (by omega) hn rfl (by omega)
    refine hnear (j - 2 + n) (by omega) (by omega) (by omega) ?_
    rw [← hseq]
    exact ⟨hrt, hrp⟩

end ActionHist

namespace ActionHist

/-- Four `file_write` calls to the same path with distinct contents. -/
def c4Seq : List ToolCall :=
  [("file_write", wparams "1"), ("file_write", wparams "2"),
   ("file_write", wparams "3"), ("file_write", wparams "4")]

set_option maxRecDepth 8000 in
theorem perTargetCap_witness :
    (runResults initialState c4Seq).get ⟨3, by decide⟩ ≠ RegOutcome.ok ∧
    ∀ (a b : String) (c d : Nat),
      (runResults initialState c4Seq).get ⟨2, by decide⟩ ≠
        RegOutcome.toolLimitExceeded a b c d :=
  ⟨(perTargetCap c4Seq "file_write" "a" 3 (by decide) (by decide) 3 (by decide)
      (by decide) (by decide)).1 (by decide),
   (perTargetCap c4Seq "file_write" "a" 3 (by decide) (by decide) 2 (by decide)
      (by decide) (by decide)).2 (by decide)⟩

/-- Three `file_write` calls with byte-identical parameters. -/
def c4ceSeq : List ToolCall :=
  List.replicate 3 ("file_write", [("path", PValue.pstr "a")])

set_option maxRecDepth 8000 in
/-- Counterexample to C4 as stated: the third (= C-th, cap 3) call to the
(file_write, "a") pair still fails — as an exact duplicate — so "the C-th
call to that pair does not fail" is false. -/
theorem perTargetCap_counterexample :
    TOOL_SPECIFIC_LIMITS "file_write" = some 3 ∧
    (c4ceSeq.take 3).countP (isPairCall "file_write" "a") = 3 ∧
    (runResults initialState c4ceSeq).get ⟨2, by decide⟩ =
      RegOutcome.exactDuplicate "file_write" := by
  decide

/-- A duplicate pair separated by one other call. -/
def c5wSeqA : List ToolCall :=
  [("tool_a", [("x", PValue.pstr "1")]), ("tool_b", [("y", PValue.pstr "2")]),
   ("tool_a", [("x", PValue.pstr "1")])]

/-- Three pairwise distinct calls. -/
def c5wSeqB : List ToolCall :=
  [("tool_a", [("x", PValue.pstr "1")]), ("tool_b", [("y", PValue.pstr "2")]),
   ("tool_c", [("z", PValue.pstr "3")])]

set_option maxRecDepth 8000 in
theorem exactDuplicateWindow_witness :
    (runResults initialState c5wSeqA).get ⟨2, by decide⟩ ≠ RegOutcome.ok ∧
    ∀ t', (runResults initialState c5wSeqB).get ⟨2, by decide⟩ ≠
      RegOutcome.exactDuplicate t' :=
  ⟨exactDuplicateWindow.1 c5wSeqA 0 2 (by decide) (by decide) (by decide) (by decide)
      (by decide) (by decide) (by decide) (by decide) (by decide),
   exactDuplicateWindow.2 c5wSeqB 2 (by decide) (by decide) (by decide)
      (by
        intro i hi h1 h2
        interval_cases i
        · show ¬(("tool_a" : String) = "tool_c" ∧
            _params_match_exact [("x", PValue.pstr "1")] [("z", PValue.pstr "3")] = true)
          decide
        · show ¬(("tool_b" : String) = "tool_c" ∧
            _params_match_exact [("y", PValue.pstr "2")] [("z", PValue.pstr "3")] = true)
          decide)⟩

/-- One call, repeated immediately with byte-identical parameters. -/
def c5ceCall : ToolCall := ("tool_a", [("x", PValue.pstr "1")])

/-- Counterexample to C5 as stated: two byte-identical calls separated by no
other call, as the first two records — the later call does not fail, because
`register_action` returns before the duplicate scan when fewer than 3
records exist. -/
theorem exactDuplicateWindow_counterexample :
    _params_match_exact c5ceCall.2 c5ceCall.2 = true ∧
    runResults initialState [c5ceCall, c5ceCall] = [RegOutcome.ok, RegOutcome.ok] := by
  decide

end ActionHist

namespace RateLimiter

/-! ## monitoring/rate_limiter.py

Time values (`time.time()` results) and the float constants are modelled as
rationals; token counts as integers.  `time.sleep(d)` is modelled as exactly
advancing the clock by `d`. -/

/-- `RateLimits` (rpm / input_tpm / output_tpm per tier). -/
structure RateLimits where
  rpm : Int
  input_tpm : Int
  output_tpm : Int
deriving DecidableEq, Repr

/-- `UsageEntry`. -/
structure UsageEntry where
  timestamp : Rat
  input_tokens : Int
  output_tokens : Int
deriving DecidableEq, Repr

/-- `MODEL_LIMITS`: Anthropic rate limits by model tier. -/
def MODEL_LIMITS : String → Option RateLimits := fun t =>
  if t == "haiku" then some ⟨50, 50000, 10000⟩
  else if t == "sonnet" then some ⟨50, 30000, 8000⟩
  else if t == "opus" then some ⟨50, 30000, 8000⟩
  else none

/-- `RATE_LIMIT_BUFFER` (default "0.8"; note `50 * 0.8 == 40.0` exactly in
IEEE doubles, so the rational value matches the float computation at the
request threshold). -/
def RATE_LIMIT_BUFFER : Rat := 4 / 5

/-- `MIN_API_DELAY` (default "0.5"). -/
def MIN_API_DELAY : Rat := 1 / 2

/-- The mutable state of the `AnthropicRateLimiter` singleton:
`_usage_by_tier` and `_last_call_time`. -/
structure LimiterState where
  usage_by_tier : String → List UsageEntry
  last_call_time : Rat

/-- The state `__init__` builds: empty deques, `_last_call_time = 0`. -/
def limiterInit : LimiterState :=
  { usage_by_tier := fun _ => [], last_call_time := 0 }

/-- `AnthropicRateLimiter.get_model_tier`: substring dispatch with "opus" as
the most-restrictive default. -/
def get_model_tier (model : String) : String :=
  let model_lower := strLower model
  if containsSub model_lower "haiku" then "haiku"
  else if containsSub model_lower "sonnet" then "sonnet"
  else if containsSub model_lower "opus" then "opus"
  else "opus"

/-- `_clean_old_entries`: pop entries older than 60 seconds from the left of
the (time-ordered) deque. -/
def _clean_old_entries (entries : List UsageEntry) (now : Rat) : List UsageEntry :=
  entries.dropWhile (fun e => e.timestamp < now - 60)

/-- `min(e.timestamp for e in entries)` (callers guard against `[]`). -/
def minTimestamp : List UsageEntry → Rat
  | [] => 0
  | e :: rest => rest.foldl (fun a x => min a x.timestamp) e.timestamp

/-- Insert an entry into a timestamp-sorted list (stable insertion step). -/
def insertByTime (e : UsageEntry) : List UsageEntry → List UsageEntry
  | [] => [e]
  | f :: rest =>
    if e.timestamp < f.timestamp then e :: f :: rest else f :: insertByTime e rest

/-- `sorted(entries, key=lambda e: e.timestamp)` (stable). -/
def sortByTime : List UsageEntry → List UsageEntry
  | [] => []
  | e :: rest => insertByTime e (sortByTime rest)

/-- The token-freeing walk shared by the input-TPM and output-TPM checks:
oldest first, stop once enough tokens free, tracking the max delay. -/
def tpmWalk (tokenOf : UsageEntry → Int) (now : Rat) :
    List UsageEntry → Rat → Rat → Rat
  | [], _, max_delay => max_delay
  | e :: rest, tokens_to_free, max_delay =>
    if tokens_to_free ≤ 0 then max_delay
    else
      let delay := e.timestamp + 60 - now
      let max_delay' := if delay > max_delay then delay else max_delay
      tpmWalk tokenOf now rest (tokens_to_free - tokenOf e) max_delay'

/-- `AnthropicRateLimiter._calculate_delay`. -/
def _calculate_delay (st : LimiterState) (tier : String)
    (estimated_input_tokens : Int) (estimated_output_tokens : Int) (now : Rat) : Rat :=
  match MODEL_LIMITS tier with
  | none => 0
  | some limits =>
    let entries := _clean_old_entries (st.usage_by_tier tier) now
    let requests : Int := entries.length
    let input_tokens : Int := (entries.map (fun e => e.input_tokens)).sum
    let output_tokens : Int := (entries.map (fun e => e.output_tokens)).sum
    let rpm_threshold : Rat := (limits.rpm : Rat) * RATE_LIMIT_BUFFER
    let input_tpm_threshold : Rat := (limits.input_tpm : Rat) * RATE_LIMIT_BUFFER
    let output_tpm_threshold : Rat := (limits.output_tpm : Rat) * RATE_LIMIT_BUFFER
    let max0 : Rat := 0
    let max1 :=
      if (requests : Rat) ≥ rpm_threshold then
        if entries ≠ [] then
          let rpm_delay := minTimestamp entries + 60 - now
          if rpm_delay > max0 then rpm_delay else max0
        else max0
      else max0
    let max2 :=
      if (input_tokens : Rat) + (estimated_input_tokens : Rat) ≥ input_tpm_threshold then
        tpmWalk (fun e => e.input_tokens) now (sortByTime entries)
          ((input_tokens : Rat) + (estimated_input_tokens : Rat) - input_tpm_threshold) max1
      else max1
    let max3 :=
      if (output_tokens : Rat) + (estimated_output_tokens : Rat) ≥ output_tpm_threshold then
        tpmWalk (fun e => e.output_tokens) now (sortByTime entries)
          ((output_tokens : Rat) + (estimated_output_tokens : Rat) - output_tpm_threshold) max2
      else max2
    let time_since_last_call := now - st.last_call_time
    let max4 :=
      if time_since_last_call < MIN_API_DELAY then
        let min_delay := MIN_API_DELAY - time_since_last_call
        if min_delay > max3 then min_delay else max3
      else max3
    max 0 max4

/-- `AnthropicRateLimiter.wait_for_capacity`: returns the seconds waited and
the state afterwards (the tier deque as cleaned by `_get_current_usage`, and
`_last_call_time` stamped after the sleep). -/
def wait_for_capacity (st : LimiterState) (model_or_tier : String)
    (estimated_input_tokens : Int) (estimated_output_tokens : Int) (now : Rat) :
    Rat × LimiterState :=
  let tier := if (MODEL_LIMITS model_or_tier).isSome then model_or_tier
              else get_model_tier model_or_tier
  let delay := _calculate_delay st tier estimated_input_tokens estimated_output_tokens now
  (delay,
   { usage_by_tier := fun t =>
       if t == tier then _clean_old_entries (st.usage_by_tier t) now
       else st.usage_by_tier t,
     last_call_time := now + delay })

/-- `AnthropicRateLimiter.record_usage`: appends a `UsageEntry` to the
resolved tier's deque. -/
def record_usage (st : LimiterState) (model_or_tier : String)
    (input_tokens output_tokens : Int) (now : Rat) : LimiterState :=
  let tier := if (MODEL_LIMITS model_or_tier).isSome then model_or_tier
              else get_model_tier model_or_tier
  { st with
    usage_by_tier := fun t =>
      if t == tier then st.usage_by_tier t ++ [⟨now, input_tokens, output_tokens⟩]
      else st.usage_by_tier t }

/-- `get_model_tier` from `main.py` (module level), used by `execute_task`
and by the `TokenTracker` it constructs; unlike the limiter's own method it
can return "grok" and "ollama". -/
def main_get_model_tier (model : String) : String :=
  if model == "" then "sonnet"
  else
    let model_lower := strLower model
    if containsSub model_lower "haiku" then "haiku"
    else if containsSub model_lower "sonnet" then "sonnet"
    else if containsSub model_lower "opus" then "opus"
    else if containsSub model_lower "grok" || containsSub model_lower "xai" then "grok"
    else if containsSub model_lower "ollama" then "ollama"
    else "sonnet"

/-- The rate-limiting gate in `execute_task` (main.py lines 354-360): the
limiter is consulted only when the tier is not "ollama". -/
def execute_task_waits (model : String) : Bool :=
  main_get_model_tier model != "ollama"

end RateLimiter

namespace RateLimiter

/-! ### Claim C2 -/

theorem dropWhile_replicate {α : Type} (p : α → Bool) (e : α) (hp : p e = false)
    (n : Nat) : (List.replicate n e).dropWhile p = List.replicate n e := by
  cases n with
  | zero => rfl
  | succ m =>
    rw [List.replicate_succ, List.dropWhile_cons, hp]
    simp

theorem minTimestamp_replicate (e : UsageEntry) (n : Nat) :
    minTimestamp (List.replicate (n + 1) e) = e.timestamp := by
  rw [List.replicate_succ]
  show (List.replicate n e).foldl (fun a x => min a x.timestamp) e.timestamp = e.timestamp
  induction n with
  | zero => rfl
  | succ m ih =>
    rw [List.replicate_succ, List.foldl_cons]
    simpa using ih

/-- The per-tier state after `n` requests with zero token usage were recorded
at time `τ` on the "haiku" tier. -/
def haikuState (n : Nat) (τ last : Rat) : LimiterState :=
  { usage_by_tier := fun t =>
      if t == "haiku" then List.replicate n ⟨τ, 0, 0⟩ else [],
    last_call_time := last }

/-- Exact value of the wait computed for the `haikuState` family: with all
entries strictly inside the window, zero token usage and estimates, and the
minimum inter-call spacing satisfied, the wait is `τ + 60 − now` once 40
entries are recorded and 0 below that. -/
theorem wait_haiku_eval (n : Nat) (τ now last : Rat)
    (hτ : now - 60 < τ) (hlast : MIN_API_DELAY ≤ now - last) :
    (wait_for_capacity (haikuState n τ last) "haiku" 0 0 now).1 =
      if 40 ≤ n then τ + 60 - now else 0 := by
  have h1 : (wait_for_capacity (haikuState n τ last) "haiku" 0 0 now).1 =
      _calculate_delay (haikuState n τ last) "haiku" 0 0 now := rfl
  have hclean : _clean_old_entries ((haikuState n τ last).usage_by_tier "haiku") now =
      List.replicate n ⟨τ, 0, 0⟩ := by
    show (List.replicate n (⟨τ, 0, 0⟩ : UsageEntry)).dropWhile
        (fun e => e.timestamp < now - 60) = _
    refine dropWhile_replicate _ _ ?_ n
    simp only [decide_eq_false_iff_not, not_lt]
    linarith
  have hsum_in : ((List.replicate n (⟨τ, 0, 0⟩ : UsageEntry)).map
      (fun e => e.input_tokens)).sum = 0 := by simp
  have hsum_out : ((List.replicate n (⟨τ, 0, 0⟩ : UsageEntry)).map
      (fun e => e.output_tokens)).sum = 0 := by simp
  have hl2 : (1 : Rat) / 2 ≤ now - last := hlast
  rw [h1]
  unfold _calculate_delay
  rw [show MODEL_LIMITS "haiku" = some ⟨50, 50000, 10000⟩ from rfl]
  dsimp only
  rw [hclean, show (haikuState n τ last).last_call_time = last from rfl,
    hsum_in, hsum_out]
  simp only [List.length_replicate, RATE_LIMIT_BUFFER, MIN_API_DELAY]
  push_cast
  norm_num
  by_cases hn : 40 ≤ n
  · obtain ⟨m, rfl⟩ : ∃ m, n = m + 1 := ⟨n - 1, by omega⟩
    rw [if_neg (not_lt.mpr hl2), if_pos hn, minTimestamp_replicate,
      if_neg (show ¬m + 1 = 0 by omega),
      if_pos (show now < (⟨τ, 0, 0⟩ : UsageEntry).timestamp + 60 from by
        show now < τ + 60
        linarith),
      if_pos hn]
    exact max_eq_right (by linarith)
  · rw [if_neg (not_lt.mpr hl2), if_neg hn, if_neg hn]
    exact max_self 0

/-- C2 (amended): for the haiku tier (`requestsPerWindow = 50`, buffer 0.8,
threshold 40), with all recorded entries strictly inside the window and the
minimum inter-call spacing already satisfied, `acquire` returns 0 wait after
at most 39 recorded requests and a wait strictly greater than 0 after 40 or
more — the comparison `requests >= rpm_threshold` makes the throttle start
at 40 recorded requests, not 41 as the claim states. -/
theorem requestThreshold (n : Nat) (τ now last : Rat)
    (hτ : now - 60 < τ) (hlast : MIN_API_DELAY ≤ now - last) :
    (n ≤ 39 → (wait_for_capacity (haikuState n τ last) "haiku" 0 0 now).1 = 0) ∧
    (40 ≤ n → 0 < (wait_for_capacity (haikuState n τ last) "haiku" 0 0 now).1) := by
  rw [wait_haiku_eval n τ now last hτ hlast]
  constructor
  · intro hn
    rw [if_neg (show ¬40 ≤ n by omega)]
  · intro hn
    rw [if_pos hn]
    linarith

end RateLimiter

namespace RateLimiter

theorem requestThreshold_witness :
    (wait_for_capacity (haikuState 39 50 0) "haiku" 0 0 100).1 = 0 ∧
    0 < (wait_for_capacity (haikuState 40 50 0) "haiku" 0 0 100).1 :=
  ⟨(requestThreshold 39 50 100 0 (by norm_num) (by norm_num [MIN_API_DELAY])).1
      (by norm_num),
   (requestThreshold 40 50 100 0 (by norm_num) (by norm_num [MIN_API_DELAY])).2
      (by norm_num)⟩

/-- Counterexample to C2 as stated: with exactly 40 usage entries recorded
inside the window (all at time 50, now = 100), `wait_for_capacity` returns a
wait of 10 seconds, not 0 — the threshold comparison is `>=`, so throttling
already starts at the 40th recorded request. -/
theorem requestThreshold_counterexample :
    ((haikuState 40 50 0).usage_by_tier "haiku").length = 40 ∧
    (∀ e ∈ (haikuState 40 50 0).usage_by_tier "haiku", (100 : Rat) - 60 < e.timestamp) ∧
    (wait_for_capacity (haikuState 40 50 0) "haiku" 0 0 100).1 = 10 ∧
    (wait_for_capacity (haikuState 40 50 0) "haiku" 0 0 100).1 ≠ 0 := by
  have heval : (wait_for_capacity (haikuState 40 50 0) "haiku" 0 0 100).1 = 10 := by
    rw [wait_haiku_eval 40 50 100 0 (by norm_num) (by norm_num [MIN_API_DELAY])]
    norm_num
  refine ⟨rfl, ?_, heval, by rw [heval]; norm_num⟩
  intro e he
  rw [show (haikuState 40 50 0).usage_by_tier "haiku" =
    List.replicate 40 (⟨50, 0, 0⟩ : UsageEntry) from rfl, List.mem_replicate] at he
  rw [he.2]
  norm_num

/-! ### Claim C6 -/

/-- C6: the `execute_task` call site does skip `wait_for_capacity` for an
Ollama model (no acquire wait), but `record_usage("ollama", …)` does NOT
leave the rate-limited ledgers unchanged: "ollama" is not in `MODEL_LIMITS`
and the limiter's own `get_model_tier` falls back to "opus", so the usage
entry is appended to the opus tier's ledger. -/
theorem ollama_usage_recorded_against_opus :
    execute_task_waits "ollama/llama3" = false ∧
    main_get_model_tier "ollama/llama3" = "ollama" ∧
    get_model_tier "ollama" = "opus" ∧
    (record_usage limiterInit "ollama" 100 50 7).usage_by_tier "opus" =
      [⟨7, 100, 50⟩] ∧
    (record_usage limiterInit "ollama" 100 50 7).usage_by_tier "haiku" = [] ∧
    (record_usage limiterInit "ollama" 100 50 7).usage_by_tier "sonnet" = [] := by
  decide

end RateLimiter

namespace Validator

/-! ## validators/test_validator.py

Each `re` pattern of the source is embedded as a character-list scanner with
the same greedy/lazy structure; `re.search` is the leftmost-position search
loop.  The scanners commit to greedy sub-matches (the character classes
involved are disjoint from what follows, so no backtracking is observable on
test-runner output). -/

/-- Match a literal case-insensitively, returning the rest. -/
def pLitCI : List Char → List Char → Option (List Char)
  | [], cs => some cs
  | _ :: _, [] => none
  | l :: ls, c :: cs => if l.toLower == c.toLower then pLitCI ls cs else none

/-- Match a literal case-sensitively, returning the rest. -/
def pLit : List Char → List Char → Option (List Char)
  | [], cs => some cs
  | _ :: _, [] => none
  | l :: ls, c :: cs => if l == c then pLit ls cs else none

/-- `\s+` (greedy). -/
def pWs1 : List Char → Option (List Char)
  | [] => none
  | c :: rest =>
    if c.isWhitespace then some (rest.dropWhile (fun x => x.isWhitespace)) else none

/-- `(\d+)` (greedy), as the number `int()` parses it. -/
def pDigits1 (cs : List Char) : Option (Nat × List Char) :=
  let digs := cs.takeWhile (fun c => c.isDigit)
  if digs.isEmpty then none
  else some (digs.foldl (fun a c => a * 10 + (c.toNat - 48)) 0,
    cs.dropWhile (fun c => c.isDigit))

/-- `([\d.]+)` (greedy), returning the matched characters. -/
def pNumDot1 (cs : List Char) : Option (List Char × List Char) :=
  let m := cs.takeWhile (fun c => c.isDigit || c == '.')
  if m.isEmpty then none
  else some (m, cs.dropWhile (fun c => c.isDigit || c == '.'))

/-- `x?` (greedy, case-insensitive). -/
def pOptCharCI (ch : Char) : List Char → List Char
  | [] => []
  | c :: rest => if c.toLower == ch.toLower then rest else c :: rest

/-- `[a-zA-Z0-9_]`, i.e. `\w` for ASCII. -/
def isWordChar (c : Char) : Bool := c.isAlphanum || c == '_'

/-- `Ran\s+(\d+)\s+tests?\s+in\s+([\d.]+)s` (IGNORECASE) at this position. -/
def tryRanTests (cs : List Char) : Option (Nat × List Char) := do
  let r1 ← pLitCI "ran".toList cs
  let r2 ← pWs1 r1
  let (n, r3) ← pDigits1 r2
  let r4 ← pWs1 r3
  let r5 ← pLitCI "test".toList r4
  let r6 := pOptCharCI 's' r5
  let r7 ← pWs1 r6
  let r8 ← pLitCI "in".toList r7
  let r9 ← pWs1 r8
  let (d, r10) ← pNumDot1 r9
  let _ ← pLitCI "s".toList r10
  some (n, d)

/-- `re.search` loop for `tryRanTests` (leftmost match). -/
def searchRanTests : List Char → Option (Nat × List Char)
  | [] => tryRanTests []
  | c :: cs =>
    match tryRanTests (c :: cs) with
    | some r => some r
    | none => searchRanTests cs

/-- `re.search(r'\bOK\b', output)` (case-sensitive), tracking the previous
character for the left word boundary. -/
def searchWordOK : Option Char → List Char → Bool
  | prev, c1 :: c2 :: rest =>
    (c1 == 'O' && c2 == 'K' &&
      (match prev with | some p => !isWordChar p | none => true) &&
      (match rest with | c3 :: _ => !isWordChar c3 | [] => true))
    || searchWordOK (some c1) (c2 :: rest)
  | _, _ => false

/-- `base` + optional suffix character + `=(\d+)` (IGNORECASE), e.g.
`failures?=(\d+)`, at this position. -/
def tryKeyEq (base : List Char) (suf : Char) (cs : List Char) : Option Nat := do
  let r1 ← pLitCI base cs
  let r2 := pOptCharCI suf r1
  let r3 ← pLit [Char.ofNat 61] r2
  let (n, _) ← pDigits1 r3
  some n

/-- `re.search` loop for `tryKeyEq`. -/
def searchKeyEq (base : List Char) (suf : Char) : List Char → Option Nat
  | [] => tryKeyEq base suf []
  | c :: cs =>
    match tryKeyEq base suf (c :: cs) with
    | some n => some n
    | none => searchKeyEq base suf cs

end Validator

namespace Validator

/-- One optional group `(?:,?\s*(\d+)\s+word)?` of the pytest summary
pattern (`allowComma := false` for the leading `passed` group, which has no
`,?`).  On failure the position is unchanged. -/
def pOptGroup (cs : List Char) (word : List Char) (allowComma : Bool) :
    Option Nat × List Char :=
  let csc :=
    if allowComma then
      match cs with
      | c :: t => if c == ',' then t else cs
      | [] => cs
    else cs
  let cs1 := csc.dropWhile (fun c => c.isWhitespace)
  match pDigits1 cs1 with
  | none => (none, cs)
  | some (n, cs2) =>
    match pWs1 cs2 with
    | none => (none, cs)
    | some cs3 =>
      match pLitCI word cs3 with
      | none => (none, cs)
      | some cs4 => (some n, cs4)

/-- The tail `in\s+([\d.]+)s?\s*={3,}` of the pytest pattern at this
position. -/
def tryPytestTail (cs : List Char) : Option (List Char) := do
  let r1 ← pLitCI "in".toList cs
  let r2 ← pWs1 r1
  let (d, r3) ← pNumDot1 r2
  let r4 := pOptCharCI 's' r3
  let r5 := r4.dropWhile (fun c => c.isWhitespace)
  if (r5.takeWhile (fun c => c == '=')).length ≥ 3 then some d else none

/-- `.*?` before the tail: lazy, `.` does not cross a newline. -/
def pytestTail : List Char → Option (List Char)
  | [] => tryPytestTail []
  | c :: cs =>
    match tryPytestTail (c :: cs) with
    | some d => some d
    | none => if c == '\n' then none else pytestTail cs

/-- The full pytest summary pattern
`={3,}\s*(?:(\d+)\s+passed)?(?:,?\s*(\d+)\s+failed)?(?:,?\s*(\d+)\s+skipped)?(?:,?\s*(\d+)\s+error)?.*?in\s+([\d.]+)s?\s*={3,}`
(IGNORECASE) at this position. -/
def tryPytest (cs : List Char) :
    Option (Option Nat × Option Nat × Option Nat × Option Nat × List Char) :=
  if ((cs.takeWhile (fun c => c == '=')).length < 3) then none
  else
    let r0 := cs.dropWhile (fun c => c == '=')
    let r1 := r0.dropWhile (fun c => c.isWhitespace)
    let (passed, r2) := pOptGroup r1 "passed".toList false
    let (failed, r3) := pOptGroup r2 "failed".toList true
    let (skipped, r4) := pOptGroup r3 "skipped".toList true
    let (errors, r5) := pOptGroup r4 "error".toList true
    match pytestTail r5 with
    | some d => some (passed, failed, skipped, errors, d)
    | none => none

/-- `re.search` loop for `tryPytest`. -/
def searchPytest : List Char →
    Option (Option Nat × Option Nat × Option Nat × Option Nat × List Char)
  | [] => tryPytest []
  | c :: cs =>
    match tryPytest (c :: cs) with
    | some r => some r
    | none => searchPytest cs

/-- `(\d+)\s+of\s+(\d+)\s+tests?\s+passed` (IGNORECASE) at this position. -/
def tryOfTests (cs : List Char) : Option (Nat × Nat) := do
  let (a, r1) ← pDigits1 cs
  let r2 ← pWs1 r1
  let r3 ← pLitCI "of".toList r2
  let r4 ← pWs1 r3
  let (b, r5) ← pDigits1 r4
  let r6 ← pWs1 r5
  let r7 ← pLitCI "test".toList r6
  let r8 := pOptCharCI 's' r7
  let r9 ← pWs1 r8
  let _ ← pLitCI "passed".toList r9
  some (a, b)

/-- `(\d+)\s+passed,\s+(\d+)\s+failed` (IGNORECASE) at this position. -/
def tryPassedFailed (cs : List Char) : Option (Nat × Nat) := do
  let (a, r1) ← pDigits1 cs
  let r2 ← pWs1 r1
  let r3 ← pLitCI "passed".toList r2
  let r4 ← pLit [Char.ofNat 44] r3
  let r5 ← pWs1 r4
  let (b, r6) ← pDigits1 r5
  let r7 ← pWs1 r6
  let _ ← pLitCI "failed".toList r7
  some (a, b)

/-- `(\d+)\s+tests?\s+passed` (IGNORECASE) at this position. -/
def tryTestsPassed (cs : List Char) : Option Nat := do
  let (a, r1) ← pDigits1 cs
  let r2 ← pWs1 r1
  let r3 ← pLitCI "test".toList r2
  let r4 := pOptCharCI 's' r3
  let r5 ← pWs1 r4
  let _ ← pLitCI "passed".toList r5
  some a

/-- `tests?:\s+(\d+)\s+passed` (IGNORECASE) at this position. -/
def tryTestsColon (cs : List Char) : Option Nat := do
  let r1 ← pLitCI "test".toList cs
  let r2 := pOptCharCI 's' r1
  let r3 ← pLit [Char.ofNat 58] r2
  let r4 ← pWs1 r3
  let (a, r5) ← pDigits1 r4
  let r6 ← pWs1 r5
  let _ ← pLitCI "passed".toList r6
  some a

/-- `re.search` loop for a position matcher. -/
def searchWith {α : Type} (try1 : List Char → Option α) : List Char → Option α
  | [] => try1 []
  | c :: cs =>
    match try1 (c :: cs) with
    | some r => some r
    | none => searchWith try1 cs

/-- `^WORD\s+\w` — the start of a `^FAIL:\s+\w+` / `^ERROR:\s+\w+` match. -/
def tryLinePrefix (word : List Char) (cs : List Char) : Bool :=
  match pLit word cs with
  | none => false
  | some r1 =>
    match pWs1 r1 with
    | none => false
    | some r2 =>
      match r2 with
      | c :: _ => isWordChar c
      | [] => false

/-- `len(re.findall(r'^WORD\s+\w+', output, re.MULTILINE))`: count the
line-start positions where the pattern matches. -/
def countLineStarts (word : List Char) : Bool → List Char → Nat
  | _, [] => 0
  | atStart, c :: cs =>
    (if atStart && tryLinePrefix word (c :: cs) then 1 else 0) +
      countLineStarts word (c == '\n') cs

/-- `Ran\s+(\d+)\s+t` (case-sensitive) at this position. -/
def tryRanPartial (cs : List Char) : Option Nat := do
  let r1 ← pLit "Ran".toList cs
  let r2 ← pWs1 r1
  let (n, r3) ← pDigits1 r2
  let r4 ← pWs1 r3
  let _ ← pLit "t".toList r4
  some n

end Validator

namespace Validator

/-- `TestResult` (dataclass).  Counts are Python ints (`tests_passed` can go
negative on adversarial unittest output, hence `Int`); the duration is kept
as the raw matched text since no modelled check ever reads its float
value. -/
structure TestResult where
  tests_run : Int := 0
  tests_passed : Int := 0
  tests_failed : Int := 0
  tests_skipped : Int := 0
  tests_errors : Int := 0
  duration_raw : Option String := none
  framework : Option String := none
  raw_output : String := ""
deriving DecidableEq, Repr

/-- `TestResult.is_valid_success`. -/
def TestResult.is_valid_success (r : TestResult) : Bool :=
  r.tests_run > 0 && r.tests_failed == 0 && r.tests_errors == 0 &&
    r.tests_passed == r.tests_run - r.tests_skipped

/-- `TestResult.success_rate`. -/
def TestResult.success_rate (r : TestResult) : Rat :=
  if r.tests_run = 0 then 0 else (r.tests_passed : Rat) / (r.tests_run : Rat)

/-- `TestResult.summary`. -/
def TestResult.summary (r : TestResult) : String :=
  if r.tests_run == 0 then "NO TESTS RAN - Test discovery failed or no tests found"
  else if r.is_valid_success then
    "SUCCESS - All " ++ toString r.tests_passed ++ " tests passed"
  else
    let parts :=
      (if r.tests_passed > 0 then [toString r.tests_passed ++ " passed"] else []) ++
      (if r.tests_failed > 0 then [toString r.tests_failed ++ " failed"] else []) ++
      (if r.tests_errors > 0 then [toString r.tests_errors ++ " errors"] else []) ++
      (if r.tests_skipped > 0 then [toString r.tests_skipped ++ " skipped"] else [])
    "FAILURE - " ++ String.intercalate ", " parts ++ " out of " ++
      toString r.tests_run ++ " tests"

/-- `TestResultValidator.parse_pytest_output`. -/
def parse_pytest_output (output : String) : TestResult :=
  match searchPytest output.toList with
  | none => { framework := some "pytest", raw_output := output }
  | some (p, f, sk, er, d) =>
    let passed : Int := (p.getD 0 : Nat)
    let failed : Int := (f.getD 0 : Nat)
    let skipped : Int := (sk.getD 0 : Nat)
    let errors : Int := (er.getD 0 : Nat)
    { framework := some "pytest", raw_output := output,
      tests_passed := passed, tests_failed := failed, tests_skipped := skipped,
      tests_errors := errors, tests_run := passed + failed + skipped,
      duration_raw := some (String.mk d) }

/-- `TestResultValidator.parse_unittest_output`. -/
def parse_unittest_output (output : String) : TestResult :=
  match searchRanTests output.toList with
  | none => { framework := some "unittest", raw_output := output }
  | some (n, d) =>
    if searchWordOK none output.toList then
      { framework := some "unittest", raw_output := output,
        tests_run := (n : Int), duration_raw := some (String.mk d),
        tests_passed := (n : Int) }
    else
      let failures : Int := ((searchKeyEq "failure".toList 's' output.toList).getD 0 : Nat)
      let errors : Int := ((searchKeyEq "error".toList 's' output.toList).getD 0 : Nat)
      let skipped : Int := ((searchKeyEq "skippe".toList 'd' output.toList).getD 0 : Nat)
      { framework := some "unittest", raw_output := output,
        tests_run := (n : Int), duration_raw := some (String.mk d),
        tests_failed := failures, tests_errors := errors, tests_skipped := skipped,
        tests_passed := (n : Int) - failures - errors - skipped }

/-- `TestResultValidator.parse_generic_output` (four patterns in order; the
two-group patterns assign (passed, failed) when the pattern mentions
`failed`, else (passed, run)). -/
def parse_generic_output (output : String) : TestResult :=
  let cs := output.toList
  match searchWith tryOfTests cs with
  | some (a, b) =>
    { framework := some "generic", raw_output := output,
      tests_passed := (a : Int), tests_run := (b : Int) }
  | none =>
    match searchWith tryPassedFailed cs with
    | some (a, b) =>
      { framework := some "generic", raw_output := output,
        tests_passed := (a : Int), tests_failed := (b : Int),
        tests_run := (a : Int) + (b : Int) }
    | none =>
      match searchWith tryTestsPassed cs with
      | some a =>
        { framework := some "generic", raw_output := output,
          tests_passed := (a : Int), tests_run := (a : Int) }
      | none =>
        match searchWith tryTestsColon cs with
        | some a =>
          { framework := some "generic", raw_output := output,
            tests_passed := (a : Int), tests_run := (a : Int) }
        | none => { framework := some "generic", raw_output := output }

/-- `parse_test_output`: framework dispatch, generic patterns, then the
`FAIL:`/`ERROR:` line fallback.  (`result.tests_run >= 0` after the unittest
parse is always true, so that branch returns unconditionally.) -/
def parse_test_output (output : String) : TestResult :=
  let pytestTried :=
    if containsSub output "===" && containsSub (strLower output) "passed" then
      let r := parse_pytest_output output
      if r.tests_run > 0 then some r else none
    else none
  match pytestTried with
  | some r => r
  | none =>
    if containsSub output "Ran" && containsSub (strLower output) "tests" then
      parse_unittest_output output
    else
      let g := parse_generic_output output
      if g.tests_run > 0 then g
      else
        let fail_count := countLineStarts "FAIL:".toList true output.toList
        let error_count := countLineStarts "ERROR:".toList true output.toList
        if fail_count ≠ 0 ∨ error_count ≠ 0 then
          let run : Int :=
            match searchWith tryRanPartial output.toList with
            | some n => (n : Int)
            | none => (fail_count : Int) + (error_count : Int)
          { framework := some "unittest-partial", raw_output := output,
            tests_failed := (fail_count : Int), tests_errors := (error_count : Int),
            tests_run := run,
            tests_passed := max 0 (run - (fail_count : Int) - (error_count : Int)) }
        else { raw_output := output }

end Validator

namespace Validator

/-! ### Claim C8 -/

set_option maxRecDepth 16000 in
/-- C8: `parse_test_output` maps "Ran 5 tests in 0.002s\n\nOK" to
`testsRun = 5` with `isValidSuccess`; "Ran 0 tests in 0.000s\n\nOK" to
`testsRun = 0` without `isValidSuccess`; and
"===== 3 passed, 2 failed in 0.05s =====" to `testsPassed = 3`,
`testsFailed = 2` without `isValidSuccess`. -/
theorem parse_test_output_examples :
    (parse_test_output "Ran 5 tests in 0.002s\n\nOK").tests_run = 5 ∧
    (parse_test_output "Ran 5 tests in 0.002s\n\nOK").is_valid_success = true ∧
    (parse_test_output "Ran 0 tests in 0.000s\n\nOK").tests_run = 0 ∧
    (parse_test_output "Ran 0 tests in 0.000s\n\nOK").is_valid_success = false ∧
    (parse_test_output "===== 3 passed, 2 failed in 0.05s =====").tests_passed = 3 ∧
    (parse_test_output "===== 3 passed, 2 failed in 0.05s =====").tests_failed = 2 ∧
    (parse_test_output "===== 3 passed, 2 failed in 0.05s =====").is_valid_success = false := by
  decide

end Validator

namespace Output

/-! ## schemas/output.py -/

/-- The `status` literal of `AgentOutput`. -/
inductive Status where
  | SUCCESS
  | SOFT_FAILURE
  | HARD_FAILURE
  | UNCERTAIN
deriving DecidableEq, Repr

/-- The fields of the pydantic `AgentOutput` model read or written by the
classifier (confidence as a rational; `details` holds the truncated raw
output). -/
structure AgentOutput where
  status : Status
  confidence : Rat
  summary : String
  files_created : List String
  files_modified : List String
  files_read : List String
  commands_executed : List String
  test_results : Option String
  success : Bool
  details : Option String
  what_was_attempted : List String
  what_succeeded : List String
  what_failed : List String
  actual_output : Option String
  failure_reason : Option String
  suggestions : List String
  requires_human_review : Bool
deriving Repr

/-- One fetched execution-log record, with the `log.get(…)` defaults already
applied (`action` defaults to "unknown", `actionInput` to `{}`,
`observation` to `""`, `isLoop` to `False`, `errorTrace` to `None`). -/
structure LogEntry where
  action : String := "unknown"
  actionInput : Params := []
  observation : String := ""
  isLoop : Bool := false
  errorTrace : Option String := none

/-- One action block matched in the raw trace by the two block patterns of
`parse_agent_output` (`actionInput` is `{}` when `json.loads` failed;
`observation` is the matched group already `.strip()`-ed). -/
structure ActionBlock where
  action : String
  actionInput : Params
  observation : String

/-- `params.get(key, dflt)`. -/
def getParamOr (params : Params) (key : String) (dflt : PValue) : PValue :=
  match lookupParam params key with
  | some v => v
  | none => dflt

/-- `params.get(key, '')` for the string-valued parameters the extractors
read (the tools always pass strings). -/
def getStrParam (params : Params) (key : String) : String :=
  match lookupParam params key with
  | some (.pstr s) => s
  | _ => ""

/-- Python `str.strip()` on a character list. -/
def pyStrip (cs : List Char) : List Char :=
  ((cs.dropWhile (fun c => c.isWhitespace)).reverse.dropWhile
    (fun c => c.isWhitespace)).reverse

/-- The lowercased observation with a leading `[stderr]` tag stripped
(stderr is a stream name, not an error). -/
def observation_for_check (observation : String) : String :=
  let o := observation.toList.map Char.toLower
  if "[stderr]".toList.isPrefixOf o then String.mk (pyStrip (o.drop 8))
  else String.mk o

/-- `success_indicators`. -/
def success_indicators : List String :=
  ["successfully", "success", "created", "wrote", "passed", " ok", "\nok"]

/-- `fail_indicators`. -/
def fail_indicators : List String :=
  ["error:", " error", "failed", "failure", "exception", "traceback",
   "not found", "no such file"]

/-- `any(ind in observation_for_check for ind in success_indicators)`. -/
def has_success_markers (oc : String) : Bool :=
  success_indicators.any (fun ind => containsSub oc ind)

/-- `any(ind in observation_for_check for ind in fail_indicators)`. -/
def has_fail_markers (oc : String) : Bool :=
  fail_indicators.any (fun ind => containsSub oc ind)

/-- Python truthiness of the optional `errorTrace` string. -/
def errorTraceTruthy : Option String → Bool
  | some s => !(s == "")
  | none => false

/-- `any(test_cmd in command for test_cmd in [...])`. -/
def is_test_command (command : String) : Bool :=
  ["pytest", "python -m unittest", "test", "python tests/"].any
    (fun tc => containsSub command tc)

/-- The accumulating lists both classifier paths build per entry. -/
structure ClsState where
  files_created : List String := []
  files_modified : List String := []
  files_read : List String := []
  commands_executed : List String := []
  what_was_attempted : List String := []
  what_succeeded : List String := []
  what_failed : List String := []
  test_results : Option String := none
  actual_test_output : Option String := none
  parsed_test_result : Option Validator.TestResult := none

/-- `observation[:100]`. -/
def pyTrunc100 (s : String) : String := String.mk (s.toList.take 100)

/-- The `shell_run` arm shared by both paths: record the command and, for a
test command, parse the observation as test output (appending a
"Test execution" failure entry when zero tests ran). -/
def processShellRun (st : ClsState) (command observation : String) : ClsState :=
  if command ≠ "" then
    let st := { st with commands_executed := st.commands_executed ++ [command] }
    if is_test_command command then
      let parsed := Validator.parse_test_output observation
      let st := { st with actual_test_output := some observation,
                          parsed_test_result := some parsed }
      if parsed.tests_run > 0 then { st with test_results := some parsed.summary }
      else
        let st := { st with
          test_results := some "Tests ran but no test results found in output" }
        if parsed.tests_run == 0 then
          { st with what_failed := st.what_failed ++ ["Test execution: " ++ parsed.summary] }
        else st
    else st
  else st

/-- The per-entry loop body of `_parse_from_execution_logs`
(output.py lines 173-238). -/
def processLog (st : ClsState) (log : LogEntry) : ClsState :=
  let action := log.action
  let action_input := log.actionInput
  let observation := log.observation
  let path_or_cmd :=
    pvDisplay (getParamOr action_input "path" (getParamOr action_input "command" (.pstr "")))
  let st := { st with
    what_was_attempted := st.what_was_attempted ++ [action ++ ": " ++ path_or_cmd] }
  let oc := observation_for_check observation
  let has_success := has_success_markers oc
  let has_failure := has_fail_markers oc || errorTraceTruthy log.errorTrace
  let st :=
    if has_success && !has_failure then
      { st with what_succeeded := st.what_succeeded ++ [action ++ ": " ++ path_or_cmd] }
    else if has_failure && !has_success then
      { st with what_failed := st.what_failed ++ [action ++ ": " ++ pyTrunc100 observation] }
    else st
  if action == "file_write" then
    let path := getStrParam action_input "path"
    let write_success := containsSub (strLower observation) "successfully" ||
      containsSub (strLower observation) "wrote"
    if path ≠ "" ∧ (write_success || (has_success && !has_failure)) = true then
      { st with files_created := st.files_created ++ [path] }
    else st
  else if action == "file_edit" then
    let path := getStrParam action_input "path"
    if path ≠ "" ∧ has_success = true then
      { st with files_modified := st.files_modified ++ [path] }
    else st
  else if action == "file_read" then
    let path := getStrParam action_input "path"
    if path ≠ "" then { st with files_read := st.files_read ++ [path] } else st
  else if action == "shell_run" then
    processShellRun st (getStrParam action_input "command") observation
  else st

/-- The per-block loop body of the raw-trace fallback in `parse_agent_output`
(output.py lines 409-472).  Differences from `processLog`: the attempted
label defaults to "unknown", `errorTrace` does not exist, the failure entry
keeps the whole observation, and `file_edit` checks
`'successfully' in observation_for_check` instead of `has_success`. -/
def processBlock (st : ClsState) (blk : ActionBlock) : ClsState :=
  let action := blk.action
  let action_input := blk.actionInput
  let observation := blk.observation
  let st := { st with
    what_was_attempted := st.what_was_attempted ++ [action ++ ": " ++
      pvDisplay (getParamOr action_input "path"
        (getParamOr action_input "command" (.pstr "unknown")))] }
  let oc := observation_for_check observation
  let has_success := has_success_markers oc
  let has_failure := has_fail_markers oc
  let st :=
    if has_success && !has_failure then
      { st with what_succeeded := st.what_succeeded ++ [action ++ ": " ++
        pvDisplay (getParamOr action_input "path"
          (getParamOr action_input "command" (.pstr "")))] }
    else if has_failure && !has_success then
      { st with what_failed := st.what_failed ++ [action ++ ": " ++ observation] }
    else st
  if action == "file_write" then
    let path := getStrParam action_input "path"
    let write_success := containsSub (strLower observation) "successfully" ||
      containsSub (strLower observation) "wrote"
    if path ≠ "" ∧ (write_success || (has_success && !has_failure)) = true then
      { st with files_created := st.files_created ++ [path] }
    else st
  else if action == "file_edit" then
    let path := getStrParam action_input "path"
    if path ≠ "" ∧ containsSub oc "successfully" = true then
      { st with files_modified := st.files_modified ++ [path] }
    else st
  else if action == "file_read" then
    let path := getStrParam action_input "path"
    if path ≠ "" then { st with files_read := st.files_read ++ [path] } else st
  else if action == "shell_run" then
    processShellRun st (getStrParam action_input "command") observation
  else st

end Output

namespace Output

/-- `list(dict.fromkeys(x))`: order-preserving dedup keeping first
occurrences. -/
def pyDedup (l : List String) : List String :=
  l.foldl (fun acc x => if acc.contains x then acc else acc ++ [x]) []

/-- The summary line built from the dedup-ed lists. -/
def buildSummary (files_created files_modified commands_executed : List String)
    (test_results : Option String) : String :=
  let parts :=
    (if files_created ≠ [] then
      ["Created " ++ toString files_created.length ++ " file(s)"] else []) ++
    (if files_modified ≠ [] then
      ["modified " ++ toString files_modified.length] else []) ++
    (if commands_executed ≠ [] then
      ["ran " ++ toString commands_executed.length ++ " command(s)"] else []) ++
    (match test_results with
     | some t => if t ≠ "" then ["tests: " ++ t] else []
     | none => [])
  if parts ≠ [] then String.intercalate ", " parts else "Task completed"

/-- `raw_output[:2000] + "..." if len(raw_output) > 2000 else raw_output`. -/
def detailsOf (raw : String) : String :=
  if raw.toList.length > 2000 then String.mk (raw.toList.take 2000) ++ "..." else raw

/-- The ordered status decision list shared by both classifier paths
(output.py lines 260-317 and 493-551); `hit_loop` is computed differently by
each caller.  Returns (status, confidence, failure_reason, suggestions). -/
def decideStatus (acc : ClsState) (files_created files_modified : List String)
    (hit_iteration_limit hit_loop : Bool) :
    Status × Rat × Option String × List String :=
  let has_meaningful_output := !files_created.isEmpty || !files_modified.isEmpty
  let success_share : Rat := (acc.what_succeeded.length : Rat) /
    ((max (acc.what_succeeded.length + acc.what_failed.length) 1 : Nat) : Rat)
  let testResultsNoTests : Bool :=
    match acc.test_results with
    | some t => (!(t == "")) && containsSub t "NO TESTS RAN"
    | none => false
  if hit_loop && !has_meaningful_output then
    (Status.SOFT_FAILURE, 3 / 10,
     some "Agent detected action loop - repeated same action multiple times",
     ["Agent got stuck repeating same action"])
  else if (!acc.what_failed.isEmpty) && !has_meaningful_output then
    (if acc.what_succeeded.isEmpty then Status.HARD_FAILURE else Status.SOFT_FAILURE,
     success_share,
     some (String.intercalate "; " (acc.what_failed.take 3)), [])
  else if testResultsNoTests && !has_meaningful_output then
    (Status.SOFT_FAILURE, 3 / 10,
     some "Tests executed but no tests were discovered or ran",
     ["Check test file location and naming",
      "Verify test functions start with \x27test_\x27"])
  else if has_meaningful_output then
    let lateSuggs :=
      (if hit_iteration_limit then
        ["Task completed but hit iteration limit - consider optimizing"] else []) ++
      (if hit_loop then ["Some loops detected but task completed"] else [])
    match acc.parsed_test_result with
    | some p =>
      if p.tests_run > 0 && !p.is_valid_success then
        (Status.SOFT_FAILURE, p.success_rate,
         some ("Tests failed: " ++ p.summary),
         (if p.tests_failed > 0 then
           [toString p.tests_failed ++ " test(s) failed - review test output"] else []) ++
         (if p.tests_errors > 0 then
           [toString p.tests_errors ++ " test error(s) - check for exceptions"] else []) ++
         lateSuggs)
      else (Status.SUCCESS, max (7 / 10) success_share, none, lateSuggs)
    | none => (Status.SUCCESS, max (7 / 10) success_share, none, lateSuggs)
  else if hit_iteration_limit then
    (Status.SOFT_FAILURE, 4 / 10,
     some "Agent stopped due to iteration or time limit before completing task",
     ["Increase maxIterations for complex tasks", "Break down into smaller subtasks"])
  else (Status.SUCCESS, 1, none, [])

/-- Assemble the returned `AgentOutput` (both paths build it the same way;
in particular `success = (status == "SUCCESS")` and
`requires_human_review = (status != "SUCCESS")`). -/
def buildOutput (acc : ClsState) (files_created files_modified files_read
    commands_executed : List String) (raw_output : String)
    (d : Status × Rat × Option String × List String) : AgentOutput :=
  { status := d.1,
    confidence := d.2.1,
    summary := buildSummary files_created files_modified commands_executed acc.test_results,
    files_created := files_created,
    files_modified := files_modified,
    files_read := files_read,
    commands_executed := commands_executed,
    test_results := acc.test_results,
    success := d.1 == Status.SUCCESS,
    details := some (detailsOf raw_output),
    what_was_attempted := acc.what_was_attempted,
    what_succeeded := acc.what_succeeded,
    what_failed := acc.what_failed,
    actual_output := acc.actual_test_output,
    failure_reason := d.2.2.1,
    suggestions := d.2.2.2,
    requires_human_review := d.1 != Status.SUCCESS }

/-- `_parse_from_execution_logs(logs, raw_output)`. -/
def _parse_from_execution_logs (logs : List LogEntry) (raw_output : String) :
    AgentOutput :=
  let acc := logs.foldl processLog {}
  let files_created := pyDedup acc.files_created
  let files_modified := pyDedup acc.files_modified
  let files_read := pyDedup acc.files_read
  let commands_executed := pyDedup acc.commands_executed
  let raw_lower := strLower raw_output
  let hit_iteration_limit := containsSub raw_lower "iteration limit" ||
    containsSub raw_lower "time limit"
  let hit_loop := logs.any (fun l => l.isLoop) || containsSub raw_lower "loop detected"
  buildOutput acc files_created files_modified files_read commands_executed raw_output
    (decideStatus acc files_created files_modified hit_iteration_limit hit_loop)

/-- The raw-trace fallback of `parse_agent_output` applied to the action
blocks its two regexes matched. -/
def parse_agent_output_fallback (blocks : List ActionBlock) (raw_output : String) :
    AgentOutput :=
  let acc := blocks.foldl processBlock {}
  let files_created := pyDedup acc.files_created
  let files_modified := pyDedup acc.files_modified
  let files_read := pyDedup acc.files_read
  let commands_executed := pyDedup acc.commands_executed
  let raw_lower := strLower raw_output
  let hit_iteration_limit := containsSub raw_lower "iteration limit" ||
    containsSub raw_lower "time limit"
  let hit_loop := containsSub raw_lower "i tried reusing the same input" ||
    containsSub raw_lower "must stop using this action"
  buildOutput acc files_created files_modified files_read commands_executed raw_output
    (decideStatus acc files_created files_modified hit_iteration_limit hit_loop)

/-- `parse_agent_output(raw_output, task_id, api_url)` at the level of its
three input-dependent stages:

* `fetched_logs` is the execution-log fetch: `some logs` when a `task_id`
  was given and the API returned 200 with that JSON body, `none` when no
  `task_id` was given or the request failed/raised (the fall-through);
* `adopted_json` is the agent-emitted structured JSON step: `some out` when
  `re.search` finds a `{…"summary"…}` block that `json.loads` parses and
  whose `files_created` or `commands_executed` is truthy, in which case
  `AgentOutput(**data)` — `out`, with pydantic defaults for absent fields —
  is returned verbatim; `none` otherwise (in particular for an empty or
  unparseable raw trace, since the pattern requires a `"summary"` literal);
* `blocks` are the action blocks the two block regexes match in
  `raw_output` (`[]` for an empty or pattern-free trace). -/
def parse_agent_output_model (fetched_logs : Option (List LogEntry))
    (adopted_json : Option AgentOutput) (blocks : List ActionBlock)
    (raw_output : String) : AgentOutput :=
  match fetched_logs with
  | some logs => _parse_from_execution_logs logs raw_output
  | none =>
    match adopted_json with
    | some out => out
    | none => parse_agent_output_fallback blocks raw_output

end Output

namespace Output

/-! ### Claim C1 -/

/-- C1 (amended): when no structured entries can be obtained — the
execution-log fetch failed or was skipped, no agent-emitted JSON block was
adopted, and the raw trace matches no action/observation pattern — and the
raw trace carries no loop or iteration/time-limit phrase, `parse_agent_output`
does not raise and returns status SUCCESS with confidence 1.0 and
`requires_human_review = false`.  It never returns UNCERTAIN: no code path
in output.py produces that status. -/
theorem no_entries_success (raw : String)
    (h1 : containsSub (strLower raw) "iteration limit" = false)
    (h2 : containsSub (strLower raw) "time limit" = false)
    (h3 : containsSub (strLower raw) "i tried reusing the same input" = false)
    (h4 : containsSub (strLower raw) "must stop using this action" = false) :
    (parse_agent_output_model none none [] raw).status = Status.SUCCESS ∧
    (parse_agent_output_model none none [] raw).confidence = 1 ∧
    (parse_agent_output_model none none [] raw).requires_human_review = false := by
  show (parse_agent_output_fallback [] raw).status = Status.SUCCESS ∧
    (parse_agent_output_fallback [] raw).confidence = 1 ∧
    (parse_agent_output_fallback [] raw).requires_human_review = false
  unfold parse_agent_output_fallback
  dsimp only
  rw [h1, h2, h3, h4]
  exact ⟨rfl, rfl, rfl⟩

theorem no_entries_success_witness :
    (parse_agent_output_model none none [] "").status = Status.SUCCESS ∧
    (parse_agent_output_model none none [] "").confidence = 1 ∧
    (parse_agent_output_model none none [] "").requires_human_review = false :=
  no_entries_success "" (by decide) (by decide) (by decide) (by decide)

/-- Counterexample to C1 as stated: the empty trace (no logs, no JSON, no
blocks) yields SUCCESS with confidence 1.0 and no human review — not
UNCERTAIN with confidence 0.5 and `requiresHumanReview = true`. -/
theorem no_entries_success_counterexample :
    (parse_agent_output_model none none [] "").status = Status.SUCCESS ∧
    (parse_agent_output_model none none [] "").status ≠ Status.UNCERTAIN ∧
    (parse_agent_output_model none none [] "").confidence = 1 ∧
    ¬(parse_agent_output_model none none [] "").confidence = 1 / 2 ∧
    (parse_agent_output_model none none [] "").requires_human_review = false :=
  ⟨rfl,
   by rw [show (parse_agent_output_model none none [] "").status = Status.SUCCESS from rfl]
      decide,
   rfl,
   by rw [show (parse_agent_output_model none none [] "").confidence = 1 from rfl]
      norm_num,
   rfl⟩

end Output

namespace Output

/-! ### Claim C7 -/

/-- C7 (amended): the execution-log path and the raw-trace heuristic path
always set `requires_human_review` to `status != SUCCESS`; the claim fails
only on the third path, which adopts agent-emitted structured JSON verbatim
(see the counterexample). -/
theorem humanReview_iff_not_success :
    (∀ (logs : List LogEntry) (raw : String),
      (_parse_from_execution_logs logs raw).requires_human_review =
        ((_parse_from_execution_logs logs raw).status != Status.SUCCESS)) ∧
    (∀ (blocks : List ActionBlock) (raw : String),
      (parse_agent_output_fallback blocks raw).requires_human_review =
        ((parse_agent_output_fallback blocks raw).status != Status.SUCCESS)) :=
  ⟨fun _ _ => rfl, fun _ _ => rfl⟩

/-- The `AgentOutput` that pydantic builds from the agent-emitted JSON block
`{"status": "SOFT_FAILURE", "summary": "x", "files_created": ["a.py"]}`:
every absent field takes its declared default, in particular
`requires_human_review = False` and `success = True`. -/
def adoptedJsonOutput : AgentOutput :=
  { status := .SOFT_FAILURE, confidence := 1, summary := "x",
    files_created := ["a.py"], files_modified := [], files_read := [],
    commands_executed := [], test_results := none, success := true,
    details := none, what_was_attempted := [], what_succeeded := [],
    what_failed := [], actual_output := none, failure_reason := none,
    suggestions := [], requires_human_review := false }

/-- Counterexample to C7 as stated: when the raw trace contains an
agent-emitted JSON block with a "summary" key and a truthy `files_created`,
`parse_agent_output` returns `AgentOutput(**data)` verbatim — here with a
non-SUCCESS status and `requires_human_review = False` (the pydantic
default). -/
theorem adopted_json_bypasses_review :
    (parse_agent_output_model none (some adoptedJsonOutput) []
      "\x7b\x22status\x22: \x22SOFT_FAILURE\x22, \x22summary\x22: \x22x\x22, \x22files_created\x22: [\x22a.py\x22]\x7d").status =
      Status.SOFT_FAILURE ∧
    (parse_agent_output_model none (some adoptedJsonOutput) []
      "\x7b\x22status\x22: \x22SOFT_FAILURE\x22, \x22summary\x22: \x22x\x22, \x22files_created\x22: [\x22a.py\x22]\x7d").requires_human_review =
      false :=
  ⟨rfl, rfl⟩

end Output

namespace Output

/-! ### Claim C10 -/

theorem processShellRun_what_succeeded (st : ClsState) (cmd obs : String) :
    (processShellRun st cmd obs).what_succeeded = st.what_succeeded := by
  unfold processShellRun
  dsimp only
  repeat' split
  all_goals rfl

/-- Exactly when an entry appends the "Test execution" failure line: a
`shell_run` whose command matches a test pattern and whose parsed
observation reports zero tests run. -/
def appendsTestFailure (action : String) (input : Params) (observation : String) : Bool :=
  action == "shell_run" && getStrParam input "command" != "" &&
    is_test_command (getStrParam input "command") &&
    !((Validator.parse_test_output observation).tests_run > 0) &&
    ((Validator.parse_test_output observation).tests_run == 0)

theorem processShellRun_what_failed (st : ClsState) (cmd obs : String)
    (h : ¬(cmd ≠ "" ∧ is_test_command cmd = true ∧
      ¬((Validator.parse_test_output obs).tests_run > 0) ∧
      (Validator.parse_test_output obs).tests_run = 0)) :
    (processShellRun st cmd obs).what_failed = st.what_failed := by
  unfold processShellRun
  dsimp only
  split
  · rename_i hcmd
    split
    · rename_i htest
      split
      · rfl
      · rename_i hrun
        split
        · rename_i hzero
          exact absurd ⟨hcmd, htest, hrun, by simpa using hzero⟩ h
        · rfl
    · rfl
  · rfl

end Output

namespace Output

/-- C10 (amended): in both classifier paths, an observation that carries
both a success marker and a failure marker (after stripping a leading
`[stderr]` tag) is counted in neither `what_succeeded` nor `what_failed` by
the marker check; the only way such an action still reaches `what_failed` —
contrary to the claim as stated — is the separate test-output rule: a
`shell_run` matching a test pattern whose parsed observation reports zero
tests run appends a "Test execution" entry (see the counterexample). -/
theorem conflicting_markers_neutral :
    (∀ (st : ClsState) (log : LogEntry),
      has_success_markers (observation_for_check log.observation) = true →
      has_fail_markers (observation_for_check log.observation) = true →
      (processLog st log).what_succeeded = st.what_succeeded) ∧
    (∀ (st : ClsState) (log : LogEntry),
      has_success_markers (observation_for_check log.observation) = true →
      has_fail_markers (observation_for_check log.observation) = true →
      appendsTestFailure log.action log.actionInput log.observation = false →
      (processLog st log).what_failed = st.what_failed) ∧
    (∀ (st : ClsState) (blk : ActionBlock),
      has_success_markers (observation_for_check blk.observation) = true →
      has_fail_markers (observation_for_check blk.observation) = true →
      (processBlock st blk).what_succeeded = st.what_succeeded) ∧
    (∀ (st : ClsState) (blk : ActionBlock),
      has_success_markers (observation_for_check blk.observation) = true →
      has_fail_markers (observation_for_check blk.observation) = true →
      appendsTestFailure blk.action blk.actionInput blk.observation = false →
      (processBlock st blk).what_failed = st.what_failed) := by
  refine ⟨?_, ?_, ?_, ?_⟩
  · intro st log hs hf
    unfold processLog
    dsimp only
    simp only [hs, hf, Bool.true_or, Bool.not_true, Bool.and_false,
      Bool.false_eq_true, if_false]
    repeat' split
    all_goals first
      | rfl
      | exact processShellRun_what_succeeded _ _ _
  · intro st log hs hf happ
    unfold processLog
    dsimp only
    simp only [hs, hf, Bool.true_or, Bool.not_true, Bool.and_false,
      Bool.false_eq_true, if_false]
    repeat' split
    all_goals try rfl
    all_goals rename_i hsh
    all_goals refine processShellRun_what_failed _ _ _ ?_
    all_goals rintro ⟨hc1, hc2, hc3, hc4⟩
    all_goals refine absurd happ ?_
    all_goals simp [appendsTestFailure, hsh, hc1, hc2, hc3, hc4]
  · intro st blk hs hf
    unfold processBlock
    dsimp only
    simp only [hs, hf, Bool.not_true, Bool.and_false, Bool.false_eq_true, if_false]
    repeat' split
    all_goals first
      | rfl
      | exact processShellRun_what_succeeded _ _ _
  · intro st blk hs hf happ
    unfold processBlock
    dsimp only
    simp only [hs, hf, Bool.not_true, Bool.and_false, Bool.false_eq_true, if_false]
    repeat' split
    all_goals try rfl
    all_goals rename_i hsh
    all_goals refine processShellRun_what_failed _ _ _ ?_
    all_goals rintro ⟨hc1, hc2, hc3, hc4⟩
    all_goals refine absurd happ ?_
    all_goals simp [appendsTestFailure, hsh, hc1, hc2, hc3, hc4]

end Output

namespace Output

/-- A `shell_run` test command whose observation carries both a success
marker ("passed") and a failure marker ("error:") and parses to zero tests
run. -/
def conflictBlock : ActionBlock :=
  { action := "shell_run", actionInput := [("command", .pstr "pytest")],
    observation := "error: passed nothing" }

/-- A `file_read` whose observation carries both a success and a failure
marker. -/
def conflictLog : LogEntry :=
  { action := "file_read", actionInput := [("path", PValue.pstr "a.py")],
    observation := "error: passed nothing" }

/-- The same entry as a raw-trace block. -/
def conflictReadBlock : ActionBlock :=
  { action := "file_read", actionInput := [("path", PValue.pstr "a.py")],
    observation := "error: passed nothing" }

/-- The empty accumulator both paths start from. -/
def emptyCls : ClsState := {}

set_option maxRecDepth 16000 in
theorem conflicting_markers_neutral_witness :
    (processLog emptyCls conflictLog).what_succeeded = [] ∧
    (processLog emptyCls conflictLog).what_failed = [] ∧
    (processBlock emptyCls conflictReadBlock).what_succeeded = [] ∧
    (processBlock emptyCls conflictReadBlock).what_failed = [] :=
  ⟨conflicting_markers_neutral.1 emptyCls conflictLog (by decide) (by decide),
   conflicting_markers_neutral.2.1 emptyCls conflictLog (by decide) (by decide) (by decide),
   conflicting_markers_neutral.2.2.1 emptyCls conflictReadBlock (by decide) (by decide),
   conflicting_markers_neutral.2.2.2 emptyCls conflictReadBlock (by decide) (by decide)
     (by decide)⟩

set_option maxRecDepth 16000 in
/-- Counterexample to C10 as stated: an observation with conflicting
markers on a `shell_run` test command still contributes to `what_failed`
(and hence to the failure branch of the status decision) through the
zero-tests rule. -/
theorem conflicting_markers_neutral_counterexample :
    has_success_markers (observation_for_check conflictBlock.observation) = true ∧
    has_fail_markers (observation_for_check conflictBlock.observation) = true ∧
    (processBlock emptyCls conflictBlock).what_failed =
      ["Test execution: NO TESTS RAN - Test discovery failed or no tests found"] ∧
    (parse_agent_output_fallback [conflictBlock] "").status = Status.HARD_FAILURE := by
  refine ⟨by decide, by decide, by decide, ?_⟩
  rfl

end Output
